import Mathlib

set_option autoImplicit false

/-! Restaurant dashboard: polling, change detection, notification and display.

A shallow embedding of the data-refresh pipeline of `src/App.js`
(`showBrowserNotification`, `playFallbackSound`, `playNotificationSound`,
`fetchData`), of its polling effect and manual refresh, and of the displayed
counters and order totals, together with the properties established below.

Modelling conventions.

* React state is the record `State`; every `setX(v)` both updates the record and
  leaves a `Effect.setX v` entry in the effect log, so the order of the calls of
  one cycle can be observed.
* JavaScript exceptions are explicit: a computation `Js α` returns
  `Except JsError α` next to the world it leaves behind, and `try`/`catch`/`finally`
  keep the effects performed before the exception was raised.
* The browser is the record `Platform`: it fixes which of the platform calls used by
  the notifier fail. Callbacks handed to the browser (`addEventListener`, `.then`,
  `.catch`, `setTimeout`) are logged when registered and are run later by
  `runCallbacks`, after the synchronous code that registered them.
* The two HTTP exchanges of a cycle are the record `Responses`.
* The mounted component with its interval is the record `Mounted`; the re-run of
  the polling effect after a render follows its dependency list.
* The counters of the stats payload are integers; the quantity and the price of
  an order item are doubles, `JsNumber`, with the rounding of every product and sum.
-/

namespace Dashboard

/-! ## Data model -/

/-- A JavaScript number, that is an IEEE 754 double: a finite value, one of the two
infinities, or NaN. A finite number is given by its exact rational value; the two
zeros are not told apart, which no sum or product of numbers and no display of a
number depends on. The numbers of a decoded payload are the values fixed by
`roundDouble`. -/
inductive JsNumber
  | finite (value : ℚ)
  | posInf
  | negInf
  | nan
deriving DecidableEq, Repr

instance (n : Nat) : OfNat JsNumber n := ⟨JsNumber.finite n⟩

/-- Rounding of a rational to the nearest integer, a tie going to the even one. -/
def roundHalfEven (x : ℚ) : ℤ :=
  if x - ⌊x⌋ < 1 / 2 then ⌊x⌋
  else if 1 / 2 < x - ⌊x⌋ then ⌊x⌋ + 1
  else if ⌊x⌋ % 2 = 0 then ⌊x⌋
  else ⌊x⌋ + 1

/-- The positive rational `a` rounded to 53 significant bits, or to a multiple of
`2 ^ (-1074)` below the normal range: with `e` the binary exponent of `a`, not
less than `-1022`, the result is the multiple of `2 ^ (e - 52)` nearest to `a`, a
tie going to the even multiple. -/
def roundMagnitude (a : ℚ) : ℚ :=
  (roundHalfEven (a / 2 ^ (max (Int.log 2 a) (-1022) - 52)) : ℚ)
    * 2 ^ (max (Int.log 2 a) (-1022) - 52)

/-- The double nearest to a rational (round to nearest, ties to even), which is
an infinity when the rounded magnitude reaches `2 ^ 1024`. -/
def roundDouble (q : ℚ) : JsNumber :=
  if q = 0 then JsNumber.finite 0
  else if 0 < q then
    if (2 : ℚ) ^ (1024 : ℕ) ≤ roundMagnitude q then JsNumber.posInf
    else JsNumber.finite (roundMagnitude q)
  else
    if (2 : ℚ) ^ (1024 : ℕ) ≤ roundMagnitude (-q) then JsNumber.negInf
    else JsNumber.finite (-(roundMagnitude (-q)))

namespace JsNumber

/-- The operator `*` on two numbers. -/
def mul : JsNumber → JsNumber → JsNumber
  | nan, _ => nan
  | _, nan => nan
  | finite a, finite b => roundDouble (a * b)
  | finite a, posInf => if a = 0 then nan else if 0 < a then posInf else negInf
  | finite a, negInf => if a = 0 then nan else if 0 < a then negInf else posInf
  | posInf, finite b => if b = 0 then nan else if 0 < b then posInf else negInf
  | negInf, finite b => if b = 0 then nan else if 0 < b then negInf else posInf
  | posInf, posInf => posInf
  | posInf, negInf => negInf
  | negInf, posInf => negInf
  | negInf, negInf => posInf

/-- The operator `+` on two numbers. -/
def add : JsNumber → JsNumber → JsNumber
  | nan, _ => nan
  | _, nan => nan
  | finite a, finite b => roundDouble (a + b)
  | finite _, posInf => posInf
  | finite _, negInf => negInf
  | posInf, finite _ => posInf
  | negInf, finite _ => negInf
  | posInf, posInf => posInf
  | posInf, negInf => nan
  | negInf, posInf => nan
  | negInf, negInf => negInf

/-- The comparison `a <= b` of two numbers; it is false when either is NaN. -/
def le : JsNumber → JsNumber → Bool
  | nan, _ => false
  | _, nan => false
  | finite a, finite b => decide (a ≤ b)
  | finite _, posInf => true
  | finite _, negInf => false
  | posInf, finite _ => false
  | negInf, finite _ => true
  | posInf, posInf => true
  | posInf, negInf => false
  | negInf, posInf => true
  | negInf, negInf => true

end JsNumber

/-- One line of an order: `{name, quantity, price}`; the quantity and the price are
JavaScript numbers. -/
structure Item where
  name : String
  quantity : JsNumber
  price : JsNumber
deriving DecidableEq, Repr

/-- One order: `{phone, items}`. -/
structure Order where
  phone : String
  items : List Item
deriving DecidableEq, Repr

/-- The object returned by the stats endpoint; an absent key is `none`.
The initial value `{}` of `useState({})` has every key absent. -/
structure StatsSnapshot where
  revenue : Option Int
  total_orders : Option Int
  delivered_orders : Option Int
  confirmed_orders : Option Int
deriving DecidableEq, Repr

/-- The value of `Notification.permission`. -/
inductive Permission
  | default
  | granted
  | denied
deriving DecidableEq, Repr

/-- The `useState` cells of `App` (lines 6-12); `lastUpdated` is `null` or a time. -/
structure State where
  stats : StatsSnapshot
  orders : List Order
  activeTab : String
  isLoading : Bool
  lastUpdated : Option Nat
  previousOrderCount : Nat
  notificationPermission : Permission
deriving DecidableEq, Repr

/-- The initial values given to `useState` in lines 6-12. -/
def initialState : State where
  stats := ⟨none, none, none, none⟩
  orders := []
  activeTab := "orders"
  isLoading := true
  lastUpdated := none
  previousOrderCount := 0
  notificationPermission := Permission.default

/-! ## Effects -/

/-- The functions of `App` whose calls are recorded in the effect log. -/
inductive Fn
  | showBrowserNotification
  | playFallbackSound
  | playNotificationSound
  | fetchData
deriving DecidableEq, Repr

/-- The callbacks that the code hands to the browser. -/
inductive Callback
  /-- The listener given to `audio.addEventListener` for the `error` event, line 78. -/
  | audioErrorListener
  /-- The reaction given to `playPromise.then`, line 87. -/
  | playThen
  /-- The reaction given to `playPromise.catch`, line 90. -/
  | playCatch
  /-- The function given to `setTimeout` in line 133; it calls `showBrowserNotification`. -/
  | delayedNotification
deriving DecidableEq, Repr

/-- The two endpoints of lines 114-115. -/
inductive Endpoint
  | stats
  | orders
deriving DecidableEq, Repr

/-- The console messages of the pipeline, with the values interpolated into them. -/
inductive LogMsg
  | browserNotificationSent
  | browserNotificationFailed
  | fallbackSoundPlayed
  | fallbackSoundFailed
  | attemptingSound
  | audioError
  | soundPlayed
  | audioPlayFailed
  | audioCreationFailed
  | fetching
  | orderCounts (previous current : Nat)
  | newOrderDetected (newOrdersCount : Int)
  | initialLoad (current : Nat)
  | noNewOrders
  | errorFetching
deriving DecidableEq, Repr

/-- Everything observable that the pipeline does, in the order it is done. -/
inductive Effect
  /-- Entry into one of the functions of `App`. -/
  | call (f : Fn)
  | log (m : LogMsg)
  /-- The expression `new Notification(...)` returned: a desktop notification is displayed. -/
  | notificationCreated
  /-- The expression `new Audio(...)` returned. -/
  | audioCreated
  /-- The method `audio.play()` was called. -/
  | audioPlayRequested
  /-- The oscillator of the synthesized tone was started and stopped. -/
  | toneStarted
  /-- A listener or promise reaction was registered. -/
  | register (cb : Callback)
  /-- The call `setTimeout(cb, delay)`. -/
  | setTimeout (cb : Callback) (delay : Nat)
  /-- The browser runs a callback registered earlier. -/
  | fire (cb : Callback)
  /-- The call `fetch(url)`. -/
  | fetchRequest (url : Endpoint)
  | setStats (v : StatsSnapshot)
  | setOrders (v : List Order)
  | setPreviousOrderCount (n : Nat)
  | setLastUpdated (t : Nat)
  | setIsLoading (b : Bool)
deriving DecidableEq, Repr

/-- The exceptions that can be raised inside the pipeline. -/
inductive JsError
  /-- The expression `new Audio(...)` raised. -/
  | audioUnavailable
  /-- Creating or driving the `AudioContext` raised. -/
  | audioContextUnavailable
  /-- The expression `new Notification(...)` raised. -/
  | notificationConstructor
  /-- A `fetch` promise was rejected (network failure). -/
  | fetchRejected
  /-- The error `Failed to fetch data` thrown in line 119. -/
  | failedToFetchData
  /-- A `response.json()` promise was rejected (the body does not decode). -/
  | malformedBody
deriving DecidableEq, Repr

/-- The component state and the log of the effects performed so far. -/
structure World where
  app : State
  effects : List Effect
deriving DecidableEq, Repr

/-- A piece of JavaScript: it runs in a world, completes with a value or raises,
and leaves a world behind in both cases. -/
def Js (α : Type) : Type := World → Except JsError α × World

namespace Js

/-- Completing with a value. -/
def ret {α : Type} (a : α) : Js α := fun w => (Except.ok a, w)

/-- Sequencing; an exception skips the rest. -/
def andThen {α β : Type} (m : Js α) (f : α → Js β) : Js β := fun w =>
  match m w with
  | (Except.ok a, w1) => f a w1
  | (Except.error e, w1) => (Except.error e, w1)

/-- The statement `throw e`. -/
def raise {α : Type} (e : JsError) : Js α := fun w => (Except.error e, w)

/-- The statement `try body catch (e) handler`: the effects of `body` up to the
exception stay. -/
def attempt {α : Type} (body : Js α) (handler : JsError → Js α) : Js α := fun w =>
  match body w with
  | (Except.ok a, w1) => (Except.ok a, w1)
  | (Except.error e, w1) => handler e w1

/-- The statement `try body finally fin`: `fin` runs in both cases, and the
outcome of `body` is kept unless `fin` itself raises. -/
def ensure {α β : Type} (body : Js α) (fin : Option α → Js β) : Js (α × β) := fun w =>
  match body w with
  | (Except.ok a, w1) =>
    match fin (some a) w1 with
    | (Except.ok b, w2) => (Except.ok (a, b), w2)
    | (Except.error e, w2) => (Except.error e, w2)
  | (Except.error e, w1) =>
    match fin none w1 with
    | (Except.ok _, w2) => (Except.error e, w2)
    | (Except.error e2, w2) => (Except.error e2, w2)

end Js

instance : Monad Js where
  pure := Js.ret
  bind := Js.andThen

instance : MonadExcept JsError Js where
  throw := Js.raise
  tryCatch := Js.attempt

instance : MonadFinally Js where
  tryFinally' := Js.ensure

/-- Appends one entry to the effect log. -/
def emit (e : Effect) : Js Unit := fun w =>
  (Except.ok (), { w with effects := w.effects ++ [e] })

/-- The calls `console.log` and `console.error`. -/
def log (m : LogMsg) : Js Unit := emit (Effect.log m)

/-- The setter `setStats`. -/
def setStats (v : StatsSnapshot) : Js Unit := fun w =>
  (Except.ok (), { app := { w.app with stats := v },
                   effects := w.effects ++ [Effect.setStats v] })

/-- The setter `setOrders`. -/
def setOrders (v : List Order) : Js Unit := fun w =>
  (Except.ok (), { app := { w.app with orders := v },
                   effects := w.effects ++ [Effect.setOrders v] })

/-- The setter `setPreviousOrderCount`. -/
def setPreviousOrderCount (n : Nat) : Js Unit := fun w =>
  (Except.ok (), { app := { w.app with previousOrderCount := n },
                   effects := w.effects ++ [Effect.setPreviousOrderCount n] })

/-- The setter `setLastUpdated`. -/
def setLastUpdated (t : Nat) : Js Unit := fun w =>
  (Except.ok (), { app := { w.app with lastUpdated := some t },
                   effects := w.effects ++ [Effect.setLastUpdated t] })

/-- The setter `setIsLoading`. -/
def setIsLoading (b : Bool) : Js Unit := fun w =>
  (Except.ok (), { app := { w.app with isLoading := b },
                   effects := w.effects ++ [Effect.setIsLoading b] })

/-! ## The browser -/

/-- What `audio.play()` returns: `undefined` (browsers without play promises), a
promise that is fulfilled, or a promise that is rejected. The method reports a
failed playback through its promise; the synchronous failure of the `try` block of
`playNotificationSound` is the failure of `new Audio(...)`. -/
inductive PlayResult
  | noPromise
  | resolves
  | rejects
deriving DecidableEq, Repr

/-- The global `Notification`, when `'Notification' in window`. -/
structure NotificationApi where
  permission : Permission
  constructorThrows : Bool
deriving DecidableEq, Repr

/-- The behaviour of the browser during one run of the notifier. -/
structure Platform where
  /-- The expression `new Audio(...)` raises. -/
  audioConstructorThrows : Bool
  /-- The audio element dispatches an `error` event. -/
  audioErrorEvent : Bool
  /-- What `audio.play()` returns. -/
  play : PlayResult
  /-- The tone synthesis of lines 48-61 raises. -/
  audioContextThrows : Bool
  /-- The global `Notification`; `none` when it is not in `window`. -/
  notification : Option NotificationApi
deriving DecidableEq, Repr

/-- The expression `new Notification(...)` of line 32. -/
def newNotification (api : NotificationApi) : Js Unit :=
  if api.constructorThrows then throw JsError.notificationConstructor
  else emit Effect.notificationCreated

/-- The expression `new Audio(...)` of line 75. -/
def newAudio (p : Platform) : Js Unit :=
  if p.audioConstructorThrows then throw JsError.audioUnavailable
  else emit Effect.audioCreated

/-- The call `audio.play()` of line 83. -/
def audioPlay (p : Platform) : Js PlayResult := do
  emit Effect.audioPlayRequested
  return p.play

/-- Lines 48-61: create the audio context, the oscillator and the gain node, and
play the half-second tone. -/
def synthesizeTone (p : Platform) : Js Unit :=
  if p.audioContextThrows then throw JsError.audioContextUnavailable
  else emit Effect.toneStarted

/-! ## The notifier (lines 29-99) -/

/-- The function `showBrowserNotification`, lines 29-43. The test of line 30
short-circuits: `Notification.permission` is read only when `Notification` exists. -/
def showBrowserNotification (p : Platform) : Js Unit := do
  emit (Effect.call Fn.showBrowserNotification)
  match p.notification with
  | some api =>
    if api.permission = Permission.granted then
      try
        newNotification api
        log LogMsg.browserNotificationSent
      catch _ =>
        log LogMsg.browserNotificationFailed
    else
      pure ()
  | none => pure ()

/-- The function `playFallbackSound`, lines 46-68. -/
def playFallbackSound (p : Platform) : Js Unit := do
  emit (Effect.call Fn.playFallbackSound)
  try
    synthesizeTone p
    log LogMsg.fallbackSoundPlayed
  catch _ =>
    log LogMsg.fallbackSoundFailed
    showBrowserNotification p

/-- The function `playNotificationSound`, lines 71-99: the synchronous part. The
reactions it registers run later, see `runCallback`. -/
def playNotificationSound (p : Platform) : Js Unit := do
  emit (Effect.call Fn.playNotificationSound)
  log LogMsg.attemptingSound
  try
    newAudio p
    emit (Effect.register Callback.audioErrorListener)
    let playPromise ← audioPlay p
    if playPromise ≠ PlayResult.noPromise then
      emit (Effect.register Callback.playThen)
      emit (Effect.register Callback.playCatch)
  catch _ =>
    log LogMsg.audioCreationFailed
    playFallbackSound p

/-- The bodies of the callbacks: lines 78-81, 87-89, 90-93 and 133-135. -/
def runCallback (p : Platform) : Callback → Js Unit
  | Callback.audioErrorListener => do
    log LogMsg.audioError
    showBrowserNotification p
  | Callback.playThen => log LogMsg.soundPlayed
  | Callback.playCatch => do
    log LogMsg.audioPlayFailed
    playFallbackSound p
  | Callback.delayedNotification => showBrowserNotification p

/-- Whether the browser ever runs a registered callback: the error listener when
the element dispatches `error`, one of the two promise reactions according to how
the play promise settles, a timer always. -/
def fires (p : Platform) : Callback → Bool
  | Callback.audioErrorListener => p.audioErrorEvent
  | Callback.playThen => p.play = PlayResult.resolves
  | Callback.playCatch => p.play = PlayResult.rejects
  | Callback.delayedNotification => true

/-- The callbacks registered in an effect log, listeners and reactions first and
timers after them. -/
def registered (effs : List Effect) : List Callback :=
  effs.filterMap (fun e => match e with
    | Effect.register cb => some cb
    | _ => none)
  ++ effs.filterMap (fun e => match e with
    | Effect.setTimeout cb _ => some cb
    | _ => none)

/-- The browser runs the given callbacks one after the other; an exception that
escapes a callback is reported by the browser and does not stop the others. -/
def runCallbacks (p : Platform) : List Callback → Js Unit
  | [] => pure ()
  | cb :: rest => do
    if fires p cb then
      emit (Effect.fire cb)
      try runCallback p cb catch _ => pure ()
    runCallbacks p rest

/-- The notifier started by `playNotificationSound`, run to completion:
the synchronous part, then the callbacks it registered. -/
def notifierChain (p : Platform) : Js Unit := do
  playNotificationSound p
  let w ← (fun w => (Except.ok w, w) : Js World)
  runCallbacks p (registered w.effects)

/-- The world in which a run is observed: a component state and an empty log. -/
def World.start (s : State) : World := { app := s, effects := [] }

/-- The effects of a computation started with an empty log. -/
def effectsOf {α : Type} (m : Js α) (s : State) : List Effect := (m (World.start s)).2.effects

/-- Whether a computation started with an empty log returns without raising. -/
def returns {α : Type} (m : Js α) (s : State) : Bool :=
  match (m (World.start s)).1 with
  | Except.ok _ => true
  | Except.error _ => false

/-! ## The fetch cycle (lines 108-151) -/

/-- An HTTP response: its `ok` flag and what `response.json()` resolves to, `none`
when the body does not decode. The orders payload is typed as the list of orders
that the endpoint is specified to return. -/
structure Response (α : Type) where
  ok : Bool
  body : Option α
deriving DecidableEq, Repr

/-- The two exchanges of one cycle; `none` is a rejected `fetch` promise. -/
structure Responses where
  stats : Option (Response StatsSnapshot)
  orders : Option (Response (List Order))
deriving DecidableEq, Repr

/-- The expression `await Promise.all([fetch(stats), fetch(orders)])`, lines 113-116:
both requests are issued, and the promise is rejected when either one is. -/
def fetchAll (r : Responses) : Js (Response StatsSnapshot × Response (List Order)) := do
  emit (Effect.fetchRequest Endpoint.stats)
  emit (Effect.fetchRequest Endpoint.orders)
  match r.stats, r.orders with
  | some statsResponse, some ordersResponse => pure (statsResponse, ordersResponse)
  | _, _ => throw JsError.fetchRejected

/-- The expression `await response.json()`. -/
def Response.json {α : Type} (resp : Response α) : Js α :=
  match resp.body with
  | some a => pure a
  | none => throw JsError.malformedBody

/-- The function `fetchData`, lines 108-151. `previousOrderCount` is the value
captured by the closure (`useCallback` lists it as a dependency), `now` is the
value of `new Date()`. -/
def fetchData (p : Platform) (previousOrderCount : Nat) (r : Responses) (now : Nat) :
    Js Unit := do
  try
    setIsLoading true
    log LogMsg.fetching
    let (statsResponse, ordersResponse) ← fetchAll r
    if !statsResponse.ok || !ordersResponse.ok then
      throw JsError.failedToFetchData
    let statsData ← statsResponse.json
    let ordersData ← ordersResponse.json
    let currentOrderCount := ordersData.length
    log (LogMsg.orderCounts previousOrderCount currentOrderCount)
    if previousOrderCount > 0 && currentOrderCount > previousOrderCount then
      let newOrdersCount : Int := (currentOrderCount : Int) - (previousOrderCount : Int)
      log (LogMsg.newOrderDetected newOrdersCount)
      playNotificationSound p
      emit (Effect.setTimeout Callback.delayedNotification 1000)
    else if previousOrderCount = 0 && currentOrderCount > 0 then
      log (LogMsg.initialLoad currentOrderCount)
    else if currentOrderCount = previousOrderCount then
      log LogMsg.noNewOrders
    setStats statsData
    setOrders ordersData
    setPreviousOrderCount currentOrderCount
    setLastUpdated now
  catch _ =>
    log LogMsg.errorFetching
  finally
    setIsLoading false

/-- One completed fetch cycle run on its own: `fetchData` is called with the
committed `previousOrderCount` in its closure, and the callbacks it registered
run after it. -/
def fetchCycle (p : Platform) (r : Responses) (now : Nat) : Js Unit := do
  let w0 ← (fun w => (Except.ok w, w) : Js World)
  fetchData p w0.app.previousOrderCount r now
  let w ← (fun w => (Except.ok w, w) : Js World)
  runCallbacks p (registered w.effects)

/-- The component state after one completed cycle. -/
def afterCycle (s : State) (c : Platform × Responses × Nat) : State :=
  (fetchCycle c.1 c.2.1 c.2.2 (World.start s)).2.app

/-- The component state after a sequence of completed, non-overlapping cycles. -/
def afterCycles (s : State) (cs : List (Platform × Responses × Nat)) : State :=
  cs.foldl afterCycle s

/-! ## Classification of cycles and of effects -/

/-- The decoded payloads of a cycle in which both requests were answered with a
success status and both bodies decode; `none` for every other cycle, that is
after a network failure, a non-success status or an undecodable body on either
side. -/
def Responses.payload : Responses → Option (StatsSnapshot × List Order)
  | ⟨some ⟨true, some statsData⟩, some ⟨true, some ordersData⟩⟩ =>
    some (statsData, ordersData)
  | _ => none

/-- The responses of a cycle in which both requests succeed with the given payloads. -/
def Responses.success (statsData : StatsSnapshot) (ordersData : List Order) : Responses :=
  ⟨some ⟨true, some statsData⟩, some ⟨true, some ordersData⟩⟩

/-- The timers set in an effect log. -/
def timers (effs : List Effect) : List (Callback × Nat) :=
  effs.filterMap (fun e => match e with
    | Effect.setTimeout cb delay => some (cb, delay)
    | _ => none)

/-- The computation always completes, leaves the component state alone and
appends exactly `es` to the effect log. -/
def Appends (m : Js Unit) (es : List Effect) : Prop :=
  ∀ w : World, m w = (Except.ok (), { app := w.app, effects := w.effects ++ es })

/-- The component state committed by a successful cycle. -/
def committed (s : State) (statsData : StatsSnapshot) (ordersData : List Order) (now : Nat) :
    State :=
  { s with stats := statsData, orders := ordersData, previousOrderCount := ordersData.length,
           lastUpdated := some now, isLoading := false }

/-- The console message of the two quiet branches of lines 136-140. -/
def quietLog (previous current : Nat) : List Effect :=
  if previous = 0 ∧ 0 < current then [Effect.log (LogMsg.initialLoad current)]
  else if current = previous then [Effect.log LogMsg.noNewOrders]
  else []

/-- The effects that only the notifier produces: calls of its functions, its
console messages, its platform calls and the registration and running of callbacks. -/
def isNotifierEffect : Effect → Bool
  | Effect.call Fn.fetchData => false
  | Effect.call _ => true
  | Effect.log LogMsg.browserNotificationSent => true
  | Effect.log LogMsg.browserNotificationFailed => true
  | Effect.log LogMsg.fallbackSoundPlayed => true
  | Effect.log LogMsg.fallbackSoundFailed => true
  | Effect.log LogMsg.attemptingSound => true
  | Effect.log LogMsg.audioError => true
  | Effect.log LogMsg.soundPlayed => true
  | Effect.log LogMsg.audioPlayFailed => true
  | Effect.log LogMsg.audioCreationFailed => true
  | Effect.log _ => false
  | Effect.notificationCreated => true
  | Effect.audioCreated => true
  | Effect.audioPlayRequested => true
  | Effect.toneStarted => true
  | Effect.register _ => true
  | Effect.fire _ => true
  | _ => false

/-- The payloads of the most recent successful cycle of a sequence of cycles, the
head of the list being the oldest cycle. -/
def lastFetched : List (Platform × Responses × Nat) → Option (StatsSnapshot × List Order)
  | [] => none
  | c :: cs =>
    match lastFetched cs with
    | some x => some x
    | none => c.2.1.payload

/-- The cycle is successful and detects new orders: both payloads arrive and the
order list is longer than a positive baseline. -/
def detectsNewOrders (previous : Nat) (r : Responses) : Bool :=
  match r.payload with
  | some (_, ordersData) => decide (0 < previous ∧ previous < ordersData.length)
  | none => false

/-! ## Polling and manual refresh (lines 153-170) -/

/-- The console messages of the polling effect and of the manual refresh. -/
inductive PollLog
  | pollingStarted
  | pollingStopped
  | manualRefreshTriggered
deriving DecidableEq, Repr

/-- What the polling effect and the refresh button do, in the order it is done. -/
inductive PollEvent
  | log (m : PollLog)
  /-- A call `fetchData()`; the argument is the `previousOrderCount` held by the
  closure that is called. -/
  | fetchDataCalled (previousOrderCount : Nat)
  /-- The call `setInterval(fetchData, delay)` and the id it returned. -/
  | setInterval (id : Nat) (delay : Nat)
  /-- The call `clearInterval(id)`. -/
  | clearInterval (id : Nat)
deriving DecidableEq, Repr

/-- The mounted component: its state, the `previousOrderCount` captured by the
`fetchData` for which the effect of line 154 last ran (`fetchData` is the only
dependency of that effect), the `intervalId` held by the cleanup of that run, the
id that the next `setInterval` returns, and the events so far. -/
structure Mounted where
  app : State
  effectDep : Nat
  intervalId : Nat
  nextIntervalId : Nat
  events : List PollEvent
deriving DecidableEq, Repr

/-- The body of the effect, lines 155-158: a fetch cycle is started at once and the
interval is created. -/
def pollingEffect (m : Mounted) : Mounted :=
  { m with effectDep := m.app.previousOrderCount,
           intervalId := m.nextIntervalId,
           nextIntervalId := m.nextIntervalId + 1,
           events := m.events ++
             [PollEvent.fetchDataCalled m.app.previousOrderCount,
              PollEvent.setInterval m.nextIntervalId 10000,
              PollEvent.log PollLog.pollingStarted] }

/-- The cleanup returned by the effect, lines 160-163. -/
def pollingCleanup (m : Mounted) : Mounted :=
  { m with events := m.events ++
             [PollEvent.log PollLog.pollingStopped, PollEvent.clearInterval m.intervalId] }

/-- What React does with the effect of line 154 after a render. Its dependency list
is `[fetchData]`, and `useCallback` re-creates `fetchData` exactly when
`previousOrderCount` differs from the one it captured (its other two
dependencies, `playNotificationSound` and `showBrowserNotification`, are
callbacks that are never re-created); then the cleanup of the previous run and
the body of the effect run. -/
def afterRender (m : Mounted) : Mounted :=
  if m.app.previousOrderCount = m.effectDep then m
  else pollingEffect (pollingCleanup m)

/-- The component right after it was mounted: the effect has run once. -/
def mount : Mounted :=
  pollingEffect
    { app := initialState, effectDep := 0, intervalId := 0, nextIntervalId := 0, events := [] }

/-- A fetch cycle that was started earlier completes: its state updates are
committed and the component is rendered again. -/
def completeCycle (m : Mounted) (c : Platform × Responses × Nat) : Mounted :=
  afterRender { m with app := afterCycle m.app c }

/-- A tick of the interval: `fetchData` is called by the browser, and the cycle
completes with the outcome `c`. -/
def timerTick (m : Mounted) (c : Platform × Responses × Nat) : Mounted :=
  completeCycle
    { m with events := m.events ++ [PollEvent.fetchDataCalled m.app.previousOrderCount] } c

/-- The function `handleManualRefresh`, lines 167-170, and the completion of the
cycle it starts with the outcome `c`. -/
def handleManualRefresh (m : Mounted) (c : Platform × Responses × Nat) : Mounted :=
  completeCycle
    { m with events := m.events ++
               [PollEvent.log PollLog.manualRefreshTriggered,
                PollEvent.fetchDataCalled m.app.previousOrderCount] } c

/-! ## Rendering (lines 172-174, 315-360, 489-493) -/

/-- The expression `v || 0` for a numeric key of the stats object: an absent key
reads as `undefined`, which is falsy, and so is the number zero. -/
def orZero (v : Option Int) : Int :=
  match v with
  | some x => if x = 0 then 0 else x
  | none => 0

/-- The value of the Total Revenue card, `stats.revenue || 0`. -/
def totalRevenue (stats : StatsSnapshot) : Int := orZero stats.revenue

/-- The value of the Total Orders card, `stats.total_orders || 0`. -/
def totalOrders (stats : StatsSnapshot) : Int := orZero stats.total_orders

/-- The value of the Completed card, `stats.delivered_orders || 0`. -/
def completed (stats : StatsSnapshot) : Int := orZero stats.delivered_orders

/-- The value of the Pending card,
`(stats.total_orders || 0) - (stats.delivered_orders || 0)`. -/
def pending (stats : StatsSnapshot) : Int :=
  orZero stats.total_orders - orZero stats.delivered_orders

/-- The chart data `statusData`, lines 172-174. -/
def statusData (stats : StatsSnapshot) : List (String × Int) :=
  [("Confirmed", orZero stats.confirmed_orders)]

/-- The Total Amount cell of an order row, lines 489-493:
`order.items.reduce((sum, item) => sum + (item.price * item.quantity), 0)`. -/
def totalAmount (order : Order) : JsNumber :=
  order.items.foldl
    (fun sum item => JsNumber.add sum (JsNumber.mul item.price item.quantity))
    (JsNumber.finite 0)

/-- The exact value of a finite number; the other numbers have no value, and 0
stands for them. -/
def JsNumber.toRat : JsNumber → ℚ
  | JsNumber.finite q => q
  | _ => 0

/-- The number is a natural number. -/
def JsNumber.isWhole (x : JsNumber) : Prop := ∃ n : ℕ, x = JsNumber.finite n

/-- The sum over the items of an order of price times quantity, computed exactly. -/
def exactTotal (order : Order) : ℚ :=
  (order.items.map (fun item => item.price.toRat * item.quantity.toRat)).sum

/-- The state reached from `s` by a successful cycle that returns no orders,
followed by the given cycles. -/
def afterEmptyFetch (s : State) (p : Platform) (statsData : StatsSnapshot) (now : Nat)
    (cs : List (Platform × Responses × Nat)) : State :=
  afterCycles (afterCycle s (p, Responses.success statsData [], now)) cs

/-! ## Sample inputs -/

/-- An order of two portions of one dish. -/
def sampleOrder : Order := ⟨"9000000001", [⟨"Biryani", 2, 250⟩]⟩

/-- A stats payload with every key present. -/
def sampleStats : StatsSnapshot := ⟨some 500, some 1, some 0, some 1⟩

/-- A browser in which the clip plays and notifications are granted. -/
def workingPlatform : Platform :=
  ⟨false, false, PlayResult.resolves, false, some ⟨Permission.granted, false⟩⟩

/-- A browser in which the audio clip cannot be loaded: the element dispatches
`error` and the play promise is rejected, while tone synthesis works and
notifications are granted. -/
def missingClip : Platform :=
  ⟨false, true, PlayResult.rejects, false, some ⟨Permission.granted, false⟩⟩

/-- A state whose baseline is five orders. -/
def fiveOrders : State :=
  { initialState with orders := List.replicate 5 sampleOrder, previousOrderCount := 5,
                      isLoading := false, lastUpdated := some 10 }

/-- Another order, of one portion of another dish. -/
def otherOrder : Order := ⟨"9000000002", [⟨"Naan", 1, 40⟩]⟩

/-- A browser in which every stage of the notifier fails: no audio element, an
audio context that raises and a notification constructor that raises. -/
def brokenPlatform : Platform :=
  ⟨true, true, PlayResult.rejects, true, some ⟨Permission.granted, true⟩⟩

/-- A state whose baseline is eight orders. -/
def eightOrders : State :=
  { initialState with stats := sampleStats, orders := List.replicate 8 sampleOrder,
                      previousOrderCount := 8, isLoading := false, lastUpdated := some 10 }

/-- The mounted component once its first cycle has loaded five orders and the
cycle started by the re-run of the effect has loaded the same five orders. -/
def polling : Mounted :=
  completeCycle
    (completeCycle mount
      (workingPlatform, Responses.success sampleStats (List.replicate 5 sampleOrder), 10))
    (workingPlatform, Responses.success sampleStats (List.replicate 5 sampleOrder), 11)

/-- An order of three portions at the price 0.1; the price is the double that the
decimal `0.1` decodes to. -/
def tenthOrder : Order :=
  ⟨"9000000003",
    [⟨"Chutney", JsNumber.finite 3,
      JsNumber.finite (3602879701896397 / 36028797018963968)⟩]⟩

/-- An order with the price 0 and a quantity that decodes to `Infinity`. -/
def unboundedOrder : Order :=
  ⟨"9000000004", [⟨"Water", JsNumber.posInf, JsNumber.finite 0⟩]⟩

/-! ## Auxiliary facts about the embedding -/

theorem Appends.effectsOf_eq {m : Js Unit} {es : List Effect} (h : Appends m es) (s : State) :
    effectsOf m s = es := by
  rw [effectsOf, h]
  simp [World.start]

theorem showBrowserNotification_appends (p : Platform) :
    Appends (showBrowserNotification p) (effectsOf (showBrowserNotification p) initialState) := by
  intro w
  rcases p with ⟨a, b, c, d, n⟩
  rcases n with _ | ⟨perm, t⟩
  · simp [showBrowserNotification, effectsOf, World.start, emit, bind, Js.andThen, pure, Js.ret]
  · cases perm <;> cases t <;>
      simp [showBrowserNotification, effectsOf, World.start, emit, log, newNotification,
        bind, Js.andThen, pure, Js.ret, tryCatch, tryCatchThe, MonadExcept.tryCatch, Js.attempt,
        throw, throwThe, MonadExcept.throw, Js.raise]

theorem playFallbackSound_appends (p : Platform) :
    Appends (playFallbackSound p) (effectsOf (playFallbackSound p) initialState) := by
  intro w
  rcases p with ⟨a, b, c, d, n⟩
  have hs := showBrowserNotification_appends ⟨a, b, c, d, n⟩
  generalize effectsOf (showBrowserNotification _) initialState = es at hs
  cases d
  · simp [playFallbackSound, synthesizeTone, effectsOf, World.start, emit, log,
      bind, Js.andThen, pure, Js.ret, tryCatch, tryCatchThe, MonadExcept.tryCatch, Js.attempt,
      throw, throwThe, MonadExcept.throw, Js.raise]
  · simp [playFallbackSound, synthesizeTone, effectsOf, World.start, emit, log,
      bind, Js.andThen, pure, Js.ret, tryCatch, tryCatchThe, MonadExcept.tryCatch, Js.attempt,
      throw, throwThe, MonadExcept.throw, Js.raise, hs _, List.append_assoc]

theorem playNotificationSound_appends (p : Platform) :
    Appends (playNotificationSound p) (effectsOf (playNotificationSound p) initialState) := by
  intro w
  rcases p with ⟨a, b, c, d, n⟩
  have hs := playFallbackSound_appends ⟨a, b, c, d, n⟩
  generalize effectsOf (playFallbackSound _) initialState = es at hs
  cases a
  · cases c <;>
      simp [playNotificationSound, newAudio, audioPlay, effectsOf, World.start, emit, log,
        bind, Js.andThen, pure, Js.ret, tryCatch, tryCatchThe, MonadExcept.tryCatch, Js.attempt,
        throw, throwThe, MonadExcept.throw, Js.raise]
  · simp [playNotificationSound, newAudio, audioPlay, effectsOf, World.start, emit, log,
      bind, Js.andThen, pure, Js.ret, tryCatch, tryCatchThe, MonadExcept.tryCatch, Js.attempt,
      throw, throwThe, MonadExcept.throw, Js.raise, hs _, List.append_assoc]

theorem runCallback_appends (p : Platform) (cb : Callback) :
    Appends (runCallback p cb) (effectsOf (runCallback p cb) initialState) := by
  intro w
  have hs := showBrowserNotification_appends p
  generalize effectsOf (showBrowserNotification _) initialState = es at hs
  have hf := playFallbackSound_appends p
  generalize effectsOf (playFallbackSound _) initialState = fs at hf
  cases cb
  · simp [runCallback, effectsOf, World.start, emit, log, bind, Js.andThen, hs _,
      List.append_assoc]
  · simp [runCallback, effectsOf, World.start, emit, log]
  · simp [runCallback, effectsOf, World.start, emit, log, bind, Js.andThen, hf _,
      List.append_assoc]
  · simp [runCallback, effectsOf, World.start, hs _]

theorem runCallbacks_appends (p : Platform) (cbs : List Callback) :
    ∃ es, Appends (runCallbacks p cbs) es := by
  induction cbs with
  | nil => exact ⟨[], fun w => by simp [runCallbacks, pure, Js.ret]⟩
  | cons cb rest ih =>
    obtain ⟨es, hes⟩ := ih
    have hc := runCallback_appends p cb
    generalize effectsOf (runCallback p cb) initialState = fs at hc
    by_cases hf : fires p cb = true
    · refine ⟨Effect.fire cb :: fs ++ es, fun w => ?_⟩
      simp [runCallbacks, hf, emit, bind, Js.andThen, tryCatch, tryCatchThe,
        MonadExcept.tryCatch, Js.attempt, hc _, hes _, List.append_assoc]
    · refine ⟨es, fun w => ?_⟩
      simp [runCallbacks, hf, bind, Js.andThen, pure, Js.ret, hes _]

theorem fetchData_failed (p : Platform) (previous : Nat) (r : Responses) (now : Nat) (w : World)
    (h : r.payload = none) :
    fetchData p previous r now w
      = (Except.ok (), { app := { w.app with isLoading := false },
                         effects := w.effects ++
                           [Effect.setIsLoading true, Effect.log LogMsg.fetching,
                            Effect.fetchRequest Endpoint.stats, Effect.fetchRequest Endpoint.orders,
                            Effect.log LogMsg.errorFetching, Effect.setIsLoading false] }) := by
  rcases r with ⟨_ | ⟨ok1, _ | b1⟩, _ | ⟨ok2, _ | b2⟩⟩ <;> try cases ok1 <;> try cases ok2
  all_goals first
    | (simp [Responses.payload] at h; done)
    | simp [fetchData, fetchAll, Response.json, setIsLoading, emit, log,
        bind, Js.andThen, pure, Js.ret, tryCatch, tryCatchThe, MonadExcept.tryCatch, Js.attempt,
        throw, throwThe, MonadExcept.throw, Js.raise, tryFinally, MonadFinally.tryFinally',
        Js.ensure, Functor.map]

theorem fetchData_quiet (p : Platform) (previous : Nat) (statsData : StatsSnapshot)
    (ordersData : List Order) (now : Nat) (w : World)
    (h : ¬ (0 < previous ∧ previous < ordersData.length)) :
    fetchData p previous (Responses.success statsData ordersData) now w
      = (Except.ok (), { app := committed w.app statsData ordersData now,
                         effects := w.effects ++
                           ([Effect.setIsLoading true, Effect.log LogMsg.fetching,
                             Effect.fetchRequest Endpoint.stats, Effect.fetchRequest Endpoint.orders,
                             Effect.log (LogMsg.orderCounts previous ordersData.length)]
                            ++ quietLog previous ordersData.length
                            ++ [Effect.setStats statsData, Effect.setOrders ordersData,
                                Effect.setPreviousOrderCount ordersData.length,
                                Effect.setLastUpdated now, Effect.setIsLoading false]) }) := by
  by_cases h1 : previous = 0 ∧ 0 < ordersData.length
  · simp [fetchData, fetchAll, Response.json, Responses.success, setIsLoading, emit, log,
      setStats, setOrders, setPreviousOrderCount, setLastUpdated, committed, quietLog,
      bind, Js.andThen, pure, Js.ret, tryCatch, tryCatchThe, MonadExcept.tryCatch, Js.attempt,
      throw, throwThe, MonadExcept.throw, Js.raise, tryFinally, MonadFinally.tryFinally',
      Js.ensure, Functor.map, h1]
  · by_cases h2 : ordersData.length = previous
    · have h3 : ¬ (previous = 0 ∧ 0 < previous) := by omega
      simp [fetchData, fetchAll, Response.json, Responses.success, setIsLoading, emit, log,
        setStats, setOrders, setPreviousOrderCount, setLastUpdated, committed, quietLog,
        bind, Js.andThen, pure, Js.ret, tryCatch, tryCatchThe, MonadExcept.tryCatch, Js.attempt,
        throw, throwThe, MonadExcept.throw, Js.raise, tryFinally, MonadFinally.tryFinally',
        Js.ensure, Functor.map, h1, h2, h3]
    · simp [fetchData, fetchAll, Response.json, Responses.success, setIsLoading, emit, log,
        setStats, setOrders, setPreviousOrderCount, setLastUpdated, committed, quietLog,
        bind, Js.andThen, pure, Js.ret, tryCatch, tryCatchThe, MonadExcept.tryCatch, Js.attempt,
        throw, throwThe, MonadExcept.throw, Js.raise, tryFinally, MonadFinally.tryFinally',
        Js.ensure, Functor.map, h, h1, h2]

theorem fetchData_notify (p : Platform) (previous : Nat) (statsData : StatsSnapshot)
    (ordersData : List Order) (now : Nat) (w : World)
    (h : 0 < previous ∧ previous < ordersData.length) :
    fetchData p previous (Responses.success statsData ordersData) now w
      = (Except.ok (), { app := committed w.app statsData ordersData now,
                         effects := w.effects ++
                           ([Effect.setIsLoading true, Effect.log LogMsg.fetching,
                             Effect.fetchRequest Endpoint.stats, Effect.fetchRequest Endpoint.orders,
                             Effect.log (LogMsg.orderCounts previous ordersData.length),
                             Effect.log (LogMsg.newOrderDetected
                               ((ordersData.length : Int) - (previous : Int)))]
                            ++ effectsOf (playNotificationSound p) initialState
                            ++ [Effect.setTimeout Callback.delayedNotification 1000,
                                Effect.setStats statsData, Effect.setOrders ordersData,
                                Effect.setPreviousOrderCount ordersData.length,
                                Effect.setLastUpdated now, Effect.setIsLoading false]) }) := by
  have hs := playNotificationSound_appends p
  generalize effectsOf (playNotificationSound p) initialState = es at hs
  simp [fetchData, fetchAll, Response.json, Responses.success, setIsLoading, emit, log,
    setStats, setOrders, setPreviousOrderCount, setLastUpdated, committed,
    bind, Js.andThen, pure, Js.ret, tryCatch, tryCatchThe, MonadExcept.tryCatch, Js.attempt,
    throw, throwThe, MonadExcept.throw, Js.raise, tryFinally, MonadFinally.tryFinally',
    Js.ensure, Functor.map, h, hs _, List.append_assoc]

theorem playNotificationSound_effects (p : Platform) :
    (effectsOf (playNotificationSound p) initialState).all isNotifierEffect = true ∧
    (effectsOf (playNotificationSound p) initialState).count
      (Effect.call Fn.playNotificationSound) = 1 := by
  rcases p with ⟨a, b, c, d, _ | ⟨perm, t⟩⟩ <;> cases a <;> cases b <;> cases c <;> cases d <;>
    (try cases perm) <;> (try cases t) <;> decide

theorem not_mem_playNotificationSound_effects (p : Platform) (e : Effect)
    (h : isNotifierEffect e = false) : e ∉ effectsOf (playNotificationSound p) initialState := by
  intro hmem
  have := List.all_eq_true.mp (playNotificationSound_effects p).1 e hmem
  simp [h] at this

theorem call_mem_playNotificationSound_effects (p : Platform) :
    Effect.call Fn.playNotificationSound ∈ effectsOf (playNotificationSound p) initialState := by
  have h := (playNotificationSound_effects p).2
  exact List.count_pos_iff.mp (by omega)

theorem timers_playNotificationSound_effects (p : Platform) :
    timers (effectsOf (playNotificationSound p) initialState) = [] := by
  rcases p with ⟨a, b, c, d, _ | ⟨perm, t⟩⟩ <;> cases a <;> cases b <;> cases c <;> cases d <;>
    (try cases perm) <;> (try cases t) <;> decide

theorem payload_eq_some {r : Responses} {statsData : StatsSnapshot} {ordersData : List Order}
    (h : r.payload = some (statsData, ordersData)) :
    r = Responses.success statsData ordersData := by
  rcases r with ⟨_ | ⟨ok1, _ | b1⟩, _ | ⟨ok2, _ | b2⟩⟩ <;> try cases ok1 <;> try cases ok2
  all_goals simp [Responses.payload, Responses.success] at h ⊢
  exact h

theorem payload_success (statsData : StatsSnapshot) (ordersData : List Order) :
    (Responses.success statsData ordersData).payload = some (statsData, ordersData) := rfl

/-- The state left by `fetchData`, whatever the closure value and the platform. -/
theorem fetchData_app (p : Platform) (previous : Nat) (r : Responses) (now : Nat) (w : World) :
    (fetchData p previous r now w).1 = Except.ok () ∧
    (fetchData p previous r now w).2.app =
      (match r.payload with
       | some (statsData, ordersData) => committed w.app statsData ordersData now
       | none => { w.app with isLoading := false }) := by
  cases hr : r.payload with
  | none => simp [fetchData_failed p previous r now w hr]
  | some x =>
    obtain ⟨statsData, ordersData⟩ := x
    rw [payload_eq_some hr]
    by_cases h : 0 < previous ∧ previous < ordersData.length
    · simp [fetchData_notify p previous statsData ordersData now w h]
    · simp [fetchData_quiet p previous statsData ordersData now w h]

theorem afterCycle_eq (s : State) (p : Platform) (r : Responses) (now : Nat) :
    afterCycle s (p, r, now) =
      (match r.payload with
       | some (statsData, ordersData) => committed s statsData ordersData now
       | none => { s with isLoading := false }) := by
  have h := fetchData_app p s.previousOrderCount r now (World.start s)
  obtain ⟨h1, h2⟩ := h
  have hw : fetchData p s.previousOrderCount r now (World.start s)
      = (Except.ok (), (fetchData p s.previousOrderCount r now (World.start s)).2) :=
    Prod.ext h1 rfl
  obtain ⟨es, hes⟩ :=
    runCallbacks_appends p (registered (fetchData p s.previousOrderCount r now (World.start s)).2.effects)
  have : afterCycle s (p, r, now) = (fetchData p s.previousOrderCount r now (World.start s)).2.app := by
    simp only [afterCycle, fetchCycle, bind, Js.andThen]
    rw [show (World.start s).app.previousOrderCount = s.previousOrderCount from rfl, hw]
    simp [hes _]
  rw [this, h2]
  rfl

theorem effectsOf_fetchData_notify (p : Platform) (previous : Nat) (statsData : StatsSnapshot)
    (ordersData : List Order) (now : Nat) (s : State)
    (h : 0 < previous ∧ previous < ordersData.length) :
    effectsOf (fetchData p previous (Responses.success statsData ordersData) now) s
      = [Effect.setIsLoading true, Effect.log LogMsg.fetching,
         Effect.fetchRequest Endpoint.stats, Effect.fetchRequest Endpoint.orders,
         Effect.log (LogMsg.orderCounts previous ordersData.length),
         Effect.log (LogMsg.newOrderDetected ((ordersData.length : Int) - (previous : Int)))]
        ++ effectsOf (playNotificationSound p) initialState
        ++ [Effect.setTimeout Callback.delayedNotification 1000,
            Effect.setStats statsData, Effect.setOrders ordersData,
            Effect.setPreviousOrderCount ordersData.length,
            Effect.setLastUpdated now, Effect.setIsLoading false] := by
  rw [effectsOf, fetchData_notify p previous statsData ordersData now _ h]
  simp [World.start]

theorem effectsOf_fetchData_quiet (p : Platform) (previous : Nat) (statsData : StatsSnapshot)
    (ordersData : List Order) (now : Nat) (s : State)
    (h : ¬ (0 < previous ∧ previous < ordersData.length)) :
    effectsOf (fetchData p previous (Responses.success statsData ordersData) now) s
      = [Effect.setIsLoading true, Effect.log LogMsg.fetching,
         Effect.fetchRequest Endpoint.stats, Effect.fetchRequest Endpoint.orders,
         Effect.log (LogMsg.orderCounts previous ordersData.length)]
        ++ quietLog previous ordersData.length
        ++ [Effect.setStats statsData, Effect.setOrders ordersData,
            Effect.setPreviousOrderCount ordersData.length,
            Effect.setLastUpdated now, Effect.setIsLoading false] := by
  rw [effectsOf, fetchData_quiet p previous statsData ordersData now _ h]
  simp [World.start]

theorem effectsOf_fetchData_failed (p : Platform) (previous : Nat) (r : Responses) (now : Nat)
    (s : State) (h : r.payload = none) :
    effectsOf (fetchData p previous r now) s
      = [Effect.setIsLoading true, Effect.log LogMsg.fetching,
         Effect.fetchRequest Endpoint.stats, Effect.fetchRequest Endpoint.orders,
         Effect.log LogMsg.errorFetching, Effect.setIsLoading false] := by
  rw [effectsOf, fetchData_failed p previous r now _ h]
  simp [World.start]

theorem call_not_mem_quietLog (f : Fn) (previous current : Nat) :
    Effect.call f ∉ quietLog previous current := by
  unfold quietLog
  split_ifs <;> simp

theorem timers_quietLog (previous current : Nat) : timers (quietLog previous current) = [] := by
  unfold quietLog
  split_ifs <;> simp [timers]

theorem timers_append (xs ys : List Effect) : timers (xs ++ ys) = timers xs ++ timers ys := by
  simp [timers, List.filterMap_append]

/-- C1: in a successful `fetchData` cycle run with the closure value `previous` on an
order list of length `current`, the notifier is triggered (`playNotificationSound`
is called and the delayed `showBrowserNotification` is scheduled) if and only if
`previous > 0` and `current > previous`; in every other case, in particular when
`previous = 0` or `current ≤ previous`, no function of the notifier is called and
no timer is set. -/
theorem fetchData_notifies_iff (p : Platform) (previous : Nat) (statsData : StatsSnapshot)
    (ordersData : List Order) (now : Nat) (s : State) :
    (Effect.call Fn.playNotificationSound
        ∈ effectsOf (fetchData p previous (Responses.success statsData ordersData) now) s
      ↔ 0 < previous ∧ previous < ordersData.length) ∧
    (Effect.setTimeout Callback.delayedNotification 1000
        ∈ effectsOf (fetchData p previous (Responses.success statsData ordersData) now) s
      ↔ 0 < previous ∧ previous < ordersData.length) ∧
    ((0 < previous ∧ previous < ordersData.length) ∨
      ((∀ f : Fn, Effect.call f
          ∉ effectsOf (fetchData p previous (Responses.success statsData ordersData) now) s) ∧
        timers (effectsOf (fetchData p previous (Responses.success statsData ordersData) now) s)
          = [])) := by
  by_cases h : 0 < previous ∧ previous < ordersData.length
  · rw [effectsOf_fetchData_notify p previous statsData ordersData now s h]
    refine ⟨⟨fun _ => h, fun _ => ?_⟩, ⟨fun _ => h, fun _ => ?_⟩, Or.inl h⟩
    · simp [call_mem_playNotificationSound_effects p]
    · simp
  · rw [effectsOf_fetchData_quiet p previous statsData ordersData now s h]
    have hq := call_not_mem_quietLog
    have ht := timers_quietLog previous ordersData.length
    refine ⟨⟨fun hm => ?_, fun hc => absurd hc h⟩, ⟨fun hm => ?_, fun hc => absurd hc h⟩,
      Or.inr ⟨fun f hm => ?_, ?_⟩⟩
    · simp [hq] at hm
    · have : (Callback.delayedNotification, 1000) ∈ timers
          ([Effect.setIsLoading true, Effect.log LogMsg.fetching,
            Effect.fetchRequest Endpoint.stats, Effect.fetchRequest Endpoint.orders,
            Effect.log (LogMsg.orderCounts previous ordersData.length)]
            ++ quietLog previous ordersData.length
            ++ [Effect.setStats statsData, Effect.setOrders ordersData,
                Effect.setPreviousOrderCount ordersData.length,
                Effect.setLastUpdated now, Effect.setIsLoading false]) := by
        unfold timers
        exact List.mem_filterMap.mpr ⟨_, hm, rfl⟩
      rw [timers_append, timers_append, ht] at this
      simp [timers] at this
    · simp [hq] at hm
    · rw [timers_append, timers_append, ht]
      simp [timers]

/-- C2: a failed cycle (a network failure, a non-success status or an undecodable
body on either side, that is `r.payload = none`) returns without raising, leaves
`stats`, `orders` and `previousOrderCount` as they were and ends with `isLoading`
false, for `fetchData` run with any closure value and for the completed cycle. -/
theorem failed_cycle_keeps_state (p : Platform) (previous : Nat) (r : Responses) (now : Nat)
    (s : State) (h : r.payload = none) :
    returns (fetchData p previous r now) s = true ∧
    (fetchData p previous r now (World.start s)).2.app = { s with isLoading := false } ∧
    (afterCycle s (p, r, now)).stats = s.stats ∧
    (afterCycle s (p, r, now)).orders = s.orders ∧
    (afterCycle s (p, r, now)).previousOrderCount = s.previousOrderCount ∧
    (afterCycle s (p, r, now)).isLoading = false := by
  have h1 := fetchData_failed p previous r now (World.start s) h
  rw [afterCycle_eq, h]
  refine ⟨?_, ?_, rfl, rfl, rfl, rfl⟩
  · simp [returns, h1]
  · rw [h1]
    rfl

/-- C3: for every state, platform, closure value and outcome of the two requests,
after `fetchData` (and after the completed cycle) either the cycle succeeded and
`stats` and `orders` are both the fetched payloads, or it failed and both are what
they were before; no outcome updates exactly one of the two. -/
theorem stats_orders_both_or_neither (p : Platform) (previous : Nat) (r : Responses) (now : Nat)
    (s : State) :
    (∃ statsData ordersData, r.payload = some (statsData, ordersData) ∧
        (fetchData p previous r now (World.start s)).2.app.stats = statsData ∧
        (fetchData p previous r now (World.start s)).2.app.orders = ordersData ∧
        (afterCycle s (p, r, now)).stats = statsData ∧
        (afterCycle s (p, r, now)).orders = ordersData) ∨
    (r.payload = none ∧
        (fetchData p previous r now (World.start s)).2.app.stats = s.stats ∧
        (fetchData p previous r now (World.start s)).2.app.orders = s.orders ∧
        (afterCycle s (p, r, now)).stats = s.stats ∧
        (afterCycle s (p, r, now)).orders = s.orders) := by
  have h2 := (fetchData_app p previous r now (World.start s)).2
  rw [afterCycle_eq, h2]
  cases hr : r.payload with
  | none => exact Or.inr ⟨rfl, rfl, rfl, rfl, rfl⟩
  | some x =>
    obtain ⟨statsData, ordersData⟩ := x
    exact Or.inl ⟨statsData, ordersData, rfl, rfl, rfl, rfl, rfl⟩

theorem afterCycles_cons (s : State) (c : Platform × Responses × Nat)
    (cs : List (Platform × Responses × Nat)) :
    afterCycles s (c :: cs) = afterCycles (afterCycle s c) cs := rfl

theorem afterCycles_orders (cs : List (Platform × Responses × Nat)) (s : State) :
    (afterCycles s cs).orders =
        (match lastFetched cs with
         | some (_, ordersData) => ordersData
         | none => s.orders) ∧
    (afterCycles s cs).previousOrderCount =
        (match lastFetched cs with
         | some (_, ordersData) => ordersData.length
         | none => s.previousOrderCount) := by
  induction cs generalizing s with
  | nil => exact ⟨rfl, rfl⟩
  | cons c cs ih =>
    obtain ⟨p, r, now⟩ := c
    rw [afterCycles_cons]
    have h := ih (afterCycle s (p, r, now))
    rw [afterCycle_eq] at h
    rw [afterCycle_eq]
    cases hl : lastFetched cs with
    | some x =>
      obtain ⟨st, os⟩ := x
      simp only [lastFetched, hl] at h ⊢
      exact h
    | none =>
      simp only [lastFetched, hl] at h ⊢
      cases hr : r.payload with
      | none =>
        simp only [hr] at h ⊢
        exact h
      | some x =>
        obtain ⟨st, os⟩ := x
        simp only [hr] at h ⊢
        exact h

/-- C4: in every state reached from the initial state by a finite sequence of
completed, non-overlapping cycles, successful or failed, `previousOrderCount` is
the length of the order list held in state, and that list is the one returned by
the most recent successful fetch (the initial empty list when there was none). -/
theorem previousOrderCount_eq_orders_length (cs : List (Platform × Responses × Nat)) :
    (afterCycles initialState cs).previousOrderCount = (afterCycles initialState cs).orders.length ∧
    (afterCycles initialState cs).orders =
      (match lastFetched cs with
       | some (_, ordersData) => ordersData
       | none => []) := by
  obtain ⟨h1, h2⟩ := afterCycles_orders cs initialState
  refine ⟨?_, h1⟩
  rw [h1, h2]
  cases lastFetched cs with
  | none => rfl
  | some x => rfl

/-- C5: from a state with `previousOrderCount = p > 0`, a successful fetch of `c > p`
orders compares `p` with `c` (the old value, as the console message of line 126
shows), computes the new-order count `c - p ≥ 1` and no other, calls
`playNotificationSound` and schedules the delayed notification, and the completed
cycle leaves `previousOrderCount = c`. -/
theorem new_orders_detected (p : Platform) (statsData : StatsSnapshot) (ordersData : List Order)
    (now : Nat) (s : State)
    (hp : 0 < s.previousOrderCount) (hc : s.previousOrderCount < ordersData.length) :
    Effect.log (LogMsg.orderCounts s.previousOrderCount ordersData.length)
      ∈ effectsOf (fetchData p s.previousOrderCount (Responses.success statsData ordersData) now) s ∧
    (∀ n : Int, Effect.log (LogMsg.newOrderDetected n)
        ∈ effectsOf (fetchData p s.previousOrderCount (Responses.success statsData ordersData) now) s
      ↔ n = (ordersData.length : Int) - (s.previousOrderCount : Int)) ∧
    (1 : Int) ≤ (ordersData.length : Int) - (s.previousOrderCount : Int) ∧
    Effect.call Fn.playNotificationSound
      ∈ effectsOf (fetchData p s.previousOrderCount (Responses.success statsData ordersData) now) s ∧
    Effect.setTimeout Callback.delayedNotification 1000
      ∈ effectsOf (fetchData p s.previousOrderCount (Responses.success statsData ordersData) now) s ∧
    (afterCycle s (p, Responses.success statsData ordersData, now)).previousOrderCount
      = ordersData.length := by
  rw [effectsOf_fetchData_notify p s.previousOrderCount statsData ordersData now s ⟨hp, hc⟩,
    afterCycle_eq, payload_success]
  refine ⟨by simp, fun n => ?_, by omega, ?_, by simp, rfl⟩
  · have hn := not_mem_playNotificationSound_effects p (Effect.log (LogMsg.newOrderDetected n)) rfl
    simp [hn]
  · simp [call_mem_playNotificationSound_effects p]

theorem lastFetched_failed (fails : List (Platform × Responses × Nat))
    (h : ∀ c ∈ fails, c.2.1.payload = none) : lastFetched fails = none := by
  induction fails with
  | nil => rfl
  | cons c cs ih =>
    have h1 := ih (fun c hc => h c (List.mem_cons_of_mem _ hc))
    simp [lastFetched, h1, h c (List.mem_cons_self _ _)]

theorem registered_quiet (previous : Nat) (statsData : StatsSnapshot) (ordersData : List Order)
    (now : Nat) :
    registered
      ([Effect.setIsLoading true, Effect.log LogMsg.fetching,
         Effect.fetchRequest Endpoint.stats, Effect.fetchRequest Endpoint.orders,
         Effect.log (LogMsg.orderCounts previous ordersData.length)]
        ++ quietLog previous ordersData.length
        ++ [Effect.setStats statsData, Effect.setOrders ordersData,
            Effect.setPreviousOrderCount ordersData.length,
            Effect.setLastUpdated now, Effect.setIsLoading false]) = [] := by
  unfold quietLog registered
  split_ifs <;> simp

theorem effectsOf_fetchCycle_quiet (p : Platform) (statsData : StatsSnapshot)
    (ordersData : List Order) (now : Nat) (s : State)
    (h : ¬ (0 < s.previousOrderCount ∧ s.previousOrderCount < ordersData.length)) :
    effectsOf (fetchCycle p (Responses.success statsData ordersData) now) s
      = [Effect.setIsLoading true, Effect.log LogMsg.fetching,
         Effect.fetchRequest Endpoint.stats, Effect.fetchRequest Endpoint.orders,
         Effect.log (LogMsg.orderCounts s.previousOrderCount ordersData.length)]
        ++ quietLog s.previousOrderCount ordersData.length
        ++ [Effect.setStats statsData, Effect.setOrders ordersData,
            Effect.setPreviousOrderCount ordersData.length,
            Effect.setLastUpdated now, Effect.setIsLoading false] := by
  have h1 := fetchData_quiet p s.previousOrderCount statsData ordersData now (World.start s) h
  have h2 := registered_quiet s.previousOrderCount statsData ordersData now
  simp only [effectsOf, fetchCycle, bind, Js.andThen]
  rw [show (World.start s).app.previousOrderCount = s.previousOrderCount from rfl, h1]
  simp only [World.start, List.nil_append]
  rw [h2]
  rfl

theorem isNotifierEffect_quietLog (previous current : Nat) :
    ∀ e ∈ quietLog previous current, isNotifierEffect e = false := by
  unfold quietLog
  split_ifs <;> simp [isNotifierEffect]

/-- C6: after any number of failed cycles from the initial state, the first
successful cycle produces no effect of the notifier (no call of its functions, no
audio, tone or desktop notification, no callback registered or run) and sets no
timer, whatever the number of orders it returns, and it leaves
`previousOrderCount` equal to that number. -/
theorem first_successful_cycle_is_quiet (fails : List (Platform × Responses × Nat))
    (p : Platform) (statsData : StatsSnapshot) (ordersData : List Order) (now : Nat)
    (hfail : ∀ c ∈ fails, c.2.1.payload = none) :
    (∀ e ∈ effectsOf (fetchCycle p (Responses.success statsData ordersData) now)
        (afterCycles initialState fails), isNotifierEffect e = false) ∧
    timers (effectsOf (fetchCycle p (Responses.success statsData ordersData) now)
        (afterCycles initialState fails)) = [] ∧
    (afterCycle (afterCycles initialState fails)
        (p, Responses.success statsData ordersData, now)).previousOrderCount
      = ordersData.length := by
  have h0 : (afterCycles initialState fails).previousOrderCount = 0 := by
    rw [(afterCycles_orders fails initialState).2, lastFetched_failed fails hfail]
    rfl
  have hq : ¬ (0 < (afterCycles initialState fails).previousOrderCount ∧
      (afterCycles initialState fails).previousOrderCount < ordersData.length) := by omega
  rw [effectsOf_fetchCycle_quiet p statsData ordersData now _ hq, afterCycle_eq, payload_success]
  refine ⟨fun e he => ?_, ?_, rfl⟩
  · simp only [List.mem_append] at he
    rcases he with (he | he) | he
    · simp at he
      rcases he with rfl | rfl | rfl | rfl | rfl <;> rfl
    · exact isNotifierEffect_quietLog _ _ e he
    · simp at he
      rcases he with rfl | rfl | rfl | rfl | rfl <;> rfl
  · rw [timers_append, timers_append, timers_quietLog]
    simp [timers]

/-- Witness of C6: two failed cycles (a network failure, then a non-success
status), then a first load of five orders. -/
theorem first_successful_cycle_is_quiet_witness :
    timers (effectsOf (fetchCycle missingClip
        (Responses.success sampleStats (List.replicate 5 sampleOrder)) 30)
        (afterCycles initialState
          [(workingPlatform, ⟨none, some ⟨true, some []⟩⟩, 10),
           (workingPlatform, ⟨some ⟨false, none⟩, some ⟨true, some [sampleOrder]⟩⟩, 20)])) = [] ∧
    (afterCycle (afterCycles initialState
          [(workingPlatform, ⟨none, some ⟨true, some []⟩⟩, 10),
           (workingPlatform, ⟨some ⟨false, none⟩, some ⟨true, some [sampleOrder]⟩⟩, 20)])
        (missingClip, Responses.success sampleStats (List.replicate 5 sampleOrder),
          30)).previousOrderCount = 5 :=
  (first_successful_cycle_is_quiet
    [(workingPlatform, ⟨none, some ⟨true, some []⟩⟩, 10),
     (workingPlatform, ⟨some ⟨false, none⟩, some ⟨true, some [sampleOrder]⟩⟩, 20)]
    missingClip sampleStats (List.replicate 5 sampleOrder) 30
    (by
      intro c hc
      simp only [List.mem_cons, List.mem_singleton, List.not_mem_nil, or_false] at hc
      rcases hc with rfl | rfl <;> rfl)).2

/-- Witness of C2: the stats request fails while the orders request succeeds. -/
theorem failed_cycle_keeps_state_witness :
    (afterCycle fiveOrders
        (workingPlatform, ⟨none, some ⟨true, some (List.replicate 8 sampleOrder)⟩⟩, 20)).stats
      = fiveOrders.stats ∧
    (afterCycle fiveOrders
        (workingPlatform, ⟨none, some ⟨true, some (List.replicate 8 sampleOrder)⟩⟩, 20)).orders
      = fiveOrders.orders ∧
    (afterCycle fiveOrders
        (workingPlatform, ⟨none, some ⟨true, some (List.replicate 8 sampleOrder)⟩⟩,
          20)).previousOrderCount = 5 ∧
    (afterCycle fiveOrders
        (workingPlatform, ⟨none, some ⟨true, some (List.replicate 8 sampleOrder)⟩⟩, 20)).isLoading
      = false :=
  (failed_cycle_keeps_state workingPlatform 5
    ⟨none, some ⟨true, some (List.replicate 8 sampleOrder)⟩⟩ 20 fiveOrders rfl).2.2

/-- Witness of C5: previous = 5 and current = 8 give the delta 3 and leave
`previousOrderCount = 8`. -/
theorem new_orders_detected_witness :
    Effect.log (LogMsg.newOrderDetected 3)
      ∈ effectsOf (fetchData workingPlatform 5
          (Responses.success sampleStats (List.replicate 8 sampleOrder)) 20) fiveOrders ∧
    (afterCycle fiveOrders
        (workingPlatform, Responses.success sampleStats (List.replicate 8 sampleOrder),
          20)).previousOrderCount = 8 :=
  ⟨((new_orders_detected workingPlatform sampleStats (List.replicate 8 sampleOrder) 20 fiveOrders
      (by decide) (by decide)).2.1 3).mpr (by decide),
   (new_orders_detected workingPlatform sampleStats (List.replicate 8 sampleOrder) 20 fiveOrders
      (by decide) (by decide)).2.2.2.2.2⟩

theorem effectsOf_notifierChain (p : Platform) (s : State) :
    effectsOf (notifierChain p) s = effectsOf (notifierChain p) initialState := by
  have h1 := playNotificationSound_appends p
  generalize effectsOf (playNotificationSound p) initialState = fs at h1
  obtain ⟨es, hes⟩ := runCallbacks_appends p (registered fs)
  have key : ∀ t : State, effectsOf (notifierChain p) t = fs ++ es := by
    intro t
    simp only [effectsOf, notifierChain, bind, Js.andThen]
    rw [h1]
    simp [World.start, hes _]
  rw [key s, key initialState]

/-- C7 (as stated, refuted): when the clip cannot be loaded, the element dispatches
`error` and the play promise is rejected; the chain then calls
`showBrowserNotification` from the error listener although the synthesized tone
was attempted and its synthesis did not raise. -/
theorem notifierChain_not_strictly_ordered :
    ¬ (Effect.call Fn.showBrowserNotification ∈ effectsOf (notifierChain missingClip) initialState
        ↔ (Effect.call Fn.playFallbackSound ∈ effectsOf (notifierChain missingClip) initialState
            ∧ missingClip.audioContextThrows = true)) := by
  decide

/-- C7 (amended): in the chain started by `playNotificationSound`, the synthesized
tone is attempted if and only if audio creation raised or the play promise was
rejected, and then exactly once; `showBrowserNotification` is called by the chain
once for a tone that was attempted and whose synthesis raised, once more when the
audio element was created and dispatched an `error` event, and otherwise not at
all; a sound that played successfully is never followed by the tone. -/
theorem notifierChain_fallback_order (p : Platform) (s : State) :
    (Effect.call Fn.playFallbackSound ∈ effectsOf (notifierChain p) s
      ↔ p.audioConstructorThrows = true ∨ p.play = PlayResult.rejects) ∧
    (effectsOf (notifierChain p) s).count (Effect.call Fn.playFallbackSound) ≤ 1 ∧
    (Effect.call Fn.showBrowserNotification ∈ effectsOf (notifierChain p) s
      ↔ (Effect.call Fn.playFallbackSound ∈ effectsOf (notifierChain p) s
            ∧ p.audioContextThrows = true)
          ∨ (p.audioConstructorThrows = false ∧ p.audioErrorEvent = true)) ∧
    (effectsOf (notifierChain p) s).count (Effect.call Fn.showBrowserNotification)
      = (if (p.audioConstructorThrows = true ∨ p.play = PlayResult.rejects)
            ∧ p.audioContextThrows = true then 1 else 0)
        + (if p.audioConstructorThrows = false ∧ p.audioErrorEvent = true then 1 else 0) ∧
    ¬ (Effect.log LogMsg.soundPlayed ∈ effectsOf (notifierChain p) s
        ∧ Effect.call Fn.playFallbackSound ∈ effectsOf (notifierChain p) s) ∧
    ¬ (Effect.log LogMsg.fallbackSoundPlayed ∈ effectsOf (notifierChain p) s
        ∧ Effect.log LogMsg.fallbackSoundFailed ∈ effectsOf (notifierChain p) s) := by
  rw [effectsOf_notifierChain p s]
  rcases p with ⟨a, b, c, d, _ | ⟨perm, t⟩⟩ <;> cases a <;> cases b <;> cases c <;> cases d <;>
    (try cases perm) <;> (try cases t) <;> decide

theorem count_call_quietLog (f : Fn) (previous current : Nat) :
    (quietLog previous current).count (Effect.call f) = 0 :=
  List.count_eq_zero.mpr (call_not_mem_quietLog f previous current)

/-- C8: a `fetchData` cycle sets exactly one timer, the 1000 ms timer whose callback
calls `showBrowserNotification` and which the browser always runs, and calls
`playNotificationSound` exactly once, when it is successful and detects new
orders, for every behaviour of the platform; every other cycle sets no timer and
does not call `playNotificationSound`. -/
theorem fetchData_schedules_delayed_notification (p : Platform) (previous : Nat) (r : Responses)
    (now : Nat) (s : State) :
    timers (effectsOf (fetchData p previous r now) s)
      = (if detectsNewOrders previous r = true then [(Callback.delayedNotification, 1000)] else []) ∧
    (effectsOf (fetchData p previous r now) s).count (Effect.call Fn.playNotificationSound)
      = (if detectsNewOrders previous r = true then 1 else 0) ∧
    runCallback p Callback.delayedNotification = showBrowserNotification p ∧
    fires p Callback.delayedNotification = true := by
  refine ⟨?_, ?_, rfl, rfl⟩
  · cases hr : r.payload with
    | none =>
      rw [effectsOf_fetchData_failed p previous r now s hr]
      simp [detectsNewOrders, hr, timers]
    | some x =>
      obtain ⟨statsData, ordersData⟩ := x
      rw [payload_eq_some hr]
      by_cases h : 0 < previous ∧ previous < ordersData.length
      · rw [effectsOf_fetchData_notify p previous statsData ordersData now s h, timers_append,
          timers_append, timers_playNotificationSound_effects]
        simp [detectsNewOrders, payload_success, h, timers]
      · rw [effectsOf_fetchData_quiet p previous statsData ordersData now s h, timers_append,
          timers_append, timers_quietLog]
        simp [detectsNewOrders, payload_success, h, timers]
  · cases hr : r.payload with
    | none =>
      rw [effectsOf_fetchData_failed p previous r now s hr]
      simp [detectsNewOrders, hr]
    | some x =>
      obtain ⟨statsData, ordersData⟩ := x
      rw [payload_eq_some hr]
      by_cases h : 0 < previous ∧ previous < ordersData.length
      · rw [effectsOf_fetchData_notify p previous statsData ordersData now s h,
          List.count_append, List.count_append, (playNotificationSound_effects p).2]
        simp [detectsNewOrders, payload_success, h]
      · rw [effectsOf_fetchData_quiet p previous statsData ordersData now s h,
          List.count_append, List.count_append, count_call_quietLog]
        simp [detectsNewOrders, payload_success, h]

/-- C9: for every platform, `showBrowserNotification` returns without raising and
leaves the component state alone; it creates a desktop notification exactly when
`Notification` is in `window`, its permission is `granted` and the constructor
does not raise; and when `Notification` is missing or its permission is `default`
or `denied`, the call has no effect at all beyond having been entered. -/
theorem showBrowserNotification_needs_permission (p : Platform) (s : State) :
    returns (showBrowserNotification p) s = true ∧
    (showBrowserNotification p (World.start s)).2.app = s ∧
    (Effect.notificationCreated ∈ effectsOf (showBrowserNotification p) s
      ↔ ∃ api, p.notification = some api ∧ api.permission = Permission.granted
          ∧ api.constructorThrows = false) ∧
    ((∃ api, p.notification = some api ∧ api.permission = Permission.granted)
      ∨ effectsOf (showBrowserNotification p) s = [Effect.call Fn.showBrowserNotification]) := by
  have h := showBrowserNotification_appends p (World.start s)
  refine ⟨by simp [returns, h], by rw [h]; rfl, ?_, ?_⟩
  · rcases p with ⟨a, b, c, d, _ | ⟨perm, t⟩⟩
    · simp [effectsOf, showBrowserNotification, World.start, emit, bind, Js.andThen, pure, Js.ret]
    · cases perm <;> cases t <;>
        simp [effectsOf, showBrowserNotification, World.start, emit, log, newNotification,
          bind, Js.andThen, pure, Js.ret, tryCatch, tryCatchThe, MonadExcept.tryCatch, Js.attempt,
          throw, throwThe, MonadExcept.throw, Js.raise]
  · rcases p with ⟨a, b, c, d, _ | ⟨perm, t⟩⟩
    · right
      simp [effectsOf, showBrowserNotification, World.start, emit, bind, Js.andThen, pure, Js.ret]
    · cases perm
      · right
        simp [effectsOf, showBrowserNotification, World.start, emit, bind, Js.andThen, pure,
          Js.ret]
      · left
        exact ⟨_, rfl, rfl⟩
      · right
        simp [effectsOf, showBrowserNotification, World.start, emit, bind, Js.andThen, pure,
          Js.ret]

/-- C10: every `fetchData` cycle begins by setting `isLoading` to true and ends by
setting it to false, so that `isLoading` is false afterwards; `lastUpdated` is the
time of the cycle after a successful cycle and is what it was, absent included,
after a failed one. -/
theorem isLoading_and_lastUpdated (p : Platform) (previous : Nat) (r : Responses) (now : Nat)
    (s : State) :
    (effectsOf (fetchData p previous r now) s).head? = some (Effect.setIsLoading true) ∧
    (setIsLoading true (World.start s)).2.app.isLoading = true ∧
    (effectsOf (fetchData p previous r now) s).getLast? = some (Effect.setIsLoading false) ∧
    (fetchData p previous r now (World.start s)).2.app.isLoading = false ∧
    (afterCycle s (p, r, now)).isLoading = false ∧
    (fetchData p previous r now (World.start s)).2.app.lastUpdated
      = (match r.payload with
         | some _ => some now
         | none => s.lastUpdated) ∧
    (afterCycle s (p, r, now)).lastUpdated
      = (match r.payload with
         | some _ => some now
         | none => s.lastUpdated) := by
  have h2 := (fetchData_app p previous r now (World.start s)).2
  rw [afterCycle_eq, h2]
  cases hr : r.payload with
  | none =>
    rw [effectsOf_fetchData_failed p previous r now s hr]
    exact ⟨rfl, rfl, rfl, rfl, rfl, rfl, rfl⟩
  | some x =>
    obtain ⟨statsData, ordersData⟩ := x
    rw [payload_eq_some hr]
    refine ⟨?_, rfl, ?_, rfl, rfl, rfl, rfl⟩
    · by_cases h : 0 < previous ∧ previous < ordersData.length
      · rw [effectsOf_fetchData_notify p previous statsData ordersData now s h]
        rfl
      · rw [effectsOf_fetchData_quiet p previous statsData ordersData now s h]
        rfl
    · by_cases h : 0 < previous ∧ previous < ordersData.length
      · rw [effectsOf_fetchData_notify p previous statsData ordersData now s h]
        rw [List.getLast?_append]
        rfl
      · rw [effectsOf_fetchData_quiet p previous statsData ordersData now s h]
        rw [List.getLast?_append]
        rfl

theorem quiet_cycle_effects (p : Platform) (statsData : StatsSnapshot) (ordersData : List Order)
    (now : Nat) (s : State)
    (h : ¬ (0 < s.previousOrderCount ∧ s.previousOrderCount < ordersData.length)) :
    (∀ e ∈ effectsOf (fetchCycle p (Responses.success statsData ordersData) now) s,
        isNotifierEffect e = false) ∧
    timers (effectsOf (fetchCycle p (Responses.success statsData ordersData) now) s) = [] := by
  rw [effectsOf_fetchCycle_quiet p statsData ordersData now s h]
  refine ⟨fun e he => ?_, ?_⟩
  · simp only [List.mem_append] at he
    rcases he with (he | he) | he
    · simp at he
      rcases he with rfl | rfl | rfl | rfl | rfl <;> rfl
    · exact isNotifierEffect_quietLog _ _ e he
    · simp at he
      rcases he with rfl | rfl | rfl | rfl | rfl <;> rfl
  · rw [timers_append, timers_append, timers_quietLog]
    simp [timers]

theorem call_mem_effectsOf_fetchData_iff (p : Platform) (previous : Nat)
    (statsData : StatsSnapshot) (ordersData : List Order) (now : Nat) (s : State) :
    Effect.call Fn.playNotificationSound
        ∈ effectsOf (fetchData p previous (Responses.success statsData ordersData) now) s
      ↔ 0 < previous ∧ previous < ordersData.length := by
  by_cases h : 0 < previous ∧ previous < ordersData.length
  · rw [effectsOf_fetchData_notify p previous statsData ordersData now s h]
    simp [call_mem_playNotificationSound_effects p, h]
  · rw [effectsOf_fetchData_quiet p previous statsData ordersData now s h]
    have hq := call_not_mem_quietLog
    simp [hq, h]

theorem returns_of_appends {m : Js Unit} {es : List Effect} (h : Appends m es) (s : State) :
    returns m s = true := by
  simp [returns, h (World.start s)]

/-- C11 (as stated, refuted): from a state that holds eight orders, a successful
fetch of eight orders of which the last differs from the one held, with other
stats, leaves `previousOrderCount = 8` and yet replaces `stats` and `orders`. -/
theorem same_count_cycle_replaces_payloads :
    ¬ ((afterCycle eightOrders
          (workingPlatform,
            Responses.success ⟨some 540, some 9, some 1, some 8⟩
              (List.replicate 7 sampleOrder ++ [otherOrder]), 20)).stats = eightOrders.stats ∧
        (afterCycle eightOrders
          (workingPlatform,
            Responses.success ⟨some 540, some 9, some 1, some 8⟩
              (List.replicate 7 sampleOrder ++ [otherOrder]), 20)).orders = eightOrders.orders ∧
        (afterCycle eightOrders
          (workingPlatform,
            Responses.success ⟨some 540, some 9, some 1, some 8⟩
              (List.replicate 7 sampleOrder ++ [otherOrder]), 20)).previousOrderCount
          = eightOrders.previousOrderCount) := by
  rw [afterCycle_eq, payload_success]
  intro h
  exact absurd h.1 (by decide)

/-- C11 (amended): from a state with `previousOrderCount = p`, a successful fetch of
exactly `p` orders produces no effect of the notifier and sets no timer, and it
changes the state only in this way: `stats` and `orders` become the fetched
payloads, `lastUpdated` becomes the time of the cycle and `isLoading` is false;
`previousOrderCount` is `p` as before. -/
theorem same_count_cycle (p : Platform) (statsData : StatsSnapshot) (ordersData : List Order)
    (now : Nat) (s : State) (h : ordersData.length = s.previousOrderCount) :
    (∀ e ∈ effectsOf (fetchCycle p (Responses.success statsData ordersData) now) s,
        isNotifierEffect e = false) ∧
    timers (effectsOf (fetchCycle p (Responses.success statsData ordersData) now) s) = [] ∧
    afterCycle s (p, Responses.success statsData ordersData, now)
      = { s with stats := statsData, orders := ordersData, lastUpdated := some now,
                 isLoading := false } ∧
    (afterCycle s (p, Responses.success statsData ordersData, now)).previousOrderCount
      = s.previousOrderCount := by
  have hq : ¬ (0 < s.previousOrderCount ∧ s.previousOrderCount < ordersData.length) := by omega
  obtain ⟨h1, h2⟩ := quiet_cycle_effects p statsData ordersData now s hq
  rw [afterCycle_eq, payload_success]
  refine ⟨h1, h2, ?_, h⟩
  simp [committed, h]

/-- Witness of C11: previous = 8 and current = 8, with one order and the stats
replaced. -/
theorem same_count_cycle_witness :
    timers (effectsOf (fetchCycle workingPlatform
        (Responses.success ⟨some 540, some 9, some 1, some 8⟩
          (List.replicate 7 sampleOrder ++ [otherOrder])) 20) eightOrders) = [] ∧
    (afterCycle eightOrders
        (workingPlatform,
          Responses.success ⟨some 540, some 9, some 1, some 8⟩
            (List.replicate 7 sampleOrder ++ [otherOrder]), 20)).previousOrderCount = 8 :=
  ⟨(same_count_cycle workingPlatform ⟨some 540, some 9, some 1, some 8⟩
      (List.replicate 7 sampleOrder ++ [otherOrder]) 20 eightOrders (by decide)).2.1,
   (same_count_cycle workingPlatform ⟨some 540, some 9, some 1, some 8⟩
      (List.replicate 7 sampleOrder ++ [otherOrder]) 20 eightOrders (by decide)).2.2.2⟩

theorem afterEmptyFetch_previousOrderCount (s : State) (p : Platform)
    (statsData : StatsSnapshot) (now : Nat) (fails : List (Platform × Responses × Nat))
    (hfail : ∀ c ∈ fails, c.2.1.payload = none) :
    (afterEmptyFetch s p statsData now fails).previousOrderCount = 0 := by
  unfold afterEmptyFetch
  rw [(afterCycles_orders fails _).2, lastFetched_failed fails hfail, afterCycle_eq,
    payload_success]
  rfl

/-- C12: after a successful cycle that returned no orders and any number of failed
cycles, a successful cycle that returns `m > 0` orders produces no effect of the
notifier and sets no timer, and it leaves `previousOrderCount = m`; the successful
cycle after it triggers the notifier if and only if it returns more than `m`
orders. -/
theorem refetch_after_empty_is_quiet (s : State) (p1 : Platform) (stats1 : StatsSnapshot)
    (now1 : Nat) (fails : List (Platform × Responses × Nat))
    (p2 : Platform) (stats2 : StatsSnapshot) (orders2 : List Order) (now2 : Nat)
    (p3 : Platform) (stats3 : StatsSnapshot) (orders3 : List Order) (now3 : Nat)
    (hfail : ∀ c ∈ fails, c.2.1.payload = none) (hm : 0 < orders2.length) :
    (∀ e ∈ effectsOf (fetchCycle p2 (Responses.success stats2 orders2) now2)
        (afterEmptyFetch s p1 stats1 now1 fails), isNotifierEffect e = false) ∧
    timers (effectsOf (fetchCycle p2 (Responses.success stats2 orders2) now2)
        (afterEmptyFetch s p1 stats1 now1 fails)) = [] ∧
    (afterCycle (afterEmptyFetch s p1 stats1 now1 fails)
        (p2, Responses.success stats2 orders2, now2)).previousOrderCount = orders2.length ∧
    (Effect.call Fn.playNotificationSound
        ∈ effectsOf
            (fetchData p3
              (afterCycle (afterEmptyFetch s p1 stats1 now1 fails)
                (p2, Responses.success stats2 orders2, now2)).previousOrderCount
              (Responses.success stats3 orders3) now3)
            (afterCycle (afterEmptyFetch s p1 stats1 now1 fails)
              (p2, Responses.success stats2 orders2, now2))
      ↔ orders2.length < orders3.length) := by
  have h0 := afterEmptyFetch_previousOrderCount s p1 stats1 now1 fails hfail
  have hq : ¬ (0 < (afterEmptyFetch s p1 stats1 now1 fails).previousOrderCount ∧
      (afterEmptyFetch s p1 stats1 now1 fails).previousOrderCount < orders2.length) := by omega
  obtain ⟨h1, h2⟩ := quiet_cycle_effects p2 stats2 orders2 now2 _ hq
  have h3 : (afterCycle (afterEmptyFetch s p1 stats1 now1 fails)
      (p2, Responses.success stats2 orders2, now2)).previousOrderCount = orders2.length := by
    rw [afterCycle_eq, payload_success]
    rfl
  refine ⟨h1, h2, h3, ?_⟩
  rw [call_mem_effectsOf_fetchData_iff, h3]
  exact ⟨fun h => h.2, fun h => ⟨hm, h⟩⟩

/-- Witness of C12: eight orders are cleared, one cycle fails, five orders come
back without a notification, and `previousOrderCount` becomes 5. -/
theorem refetch_after_empty_is_quiet_witness :
    timers (effectsOf (fetchCycle workingPlatform
        (Responses.success sampleStats (List.replicate 5 sampleOrder)) 40)
        (afterEmptyFetch eightOrders workingPlatform sampleStats 20
          [(workingPlatform, ⟨none, none⟩, 30)])) = [] ∧
    (afterCycle (afterEmptyFetch eightOrders workingPlatform sampleStats 20
          [(workingPlatform, ⟨none, none⟩, 30)])
        (workingPlatform, Responses.success sampleStats (List.replicate 5 sampleOrder),
          40)).previousOrderCount = 5 :=
  ⟨(refetch_after_empty_is_quiet eightOrders workingPlatform sampleStats 20
      [(workingPlatform, ⟨none, none⟩, 30)]
      workingPlatform sampleStats (List.replicate 5 sampleOrder) 40
      workingPlatform sampleStats (List.replicate 6 sampleOrder) 50
      (by
        intro c hc
        simp only [List.mem_singleton] at hc
        rw [hc]
        rfl)
      (by decide)).2.1,
   (refetch_after_empty_is_quiet eightOrders workingPlatform sampleStats 20
      [(workingPlatform, ⟨none, none⟩, 30)]
      workingPlatform sampleStats (List.replicate 5 sampleOrder) 40
      workingPlatform sampleStats (List.replicate 6 sampleOrder) 50
      (by
        intro c hc
        simp only [List.mem_singleton] at hc
        rw [hc]
        rfl)
      (by decide)).2.2.1⟩

/-- C13: whatever fails in the notifier, `playNotificationSound`,
`playFallbackSound`, `showBrowserNotification` and every callback return without
raising, and a successful cycle that detects new orders calls the notifier,
returns without raising and commits `stats`, `orders`, `previousOrderCount` and
`lastUpdated` exactly as the same cycle does on a platform on which the sound
plays. -/
theorem notifier_failures_do_not_block_commit (p : Platform) (statsData : StatsSnapshot)
    (ordersData : List Order) (now : Nat) (s : State)
    (hp : 0 < s.previousOrderCount) (hc : s.previousOrderCount < ordersData.length) :
    returns (playNotificationSound p) s = true ∧
    returns (playFallbackSound p) s = true ∧
    returns (showBrowserNotification p) s = true ∧
    (∀ cb : Callback, returns (runCallback p cb) s = true) ∧
    Effect.call Fn.playNotificationSound
      ∈ effectsOf (fetchData p s.previousOrderCount (Responses.success statsData ordersData) now)
          s ∧
    returns (fetchData p s.previousOrderCount (Responses.success statsData ordersData) now) s
      = true ∧
    (afterCycle s (p, Responses.success statsData ordersData, now)).stats = statsData ∧
    (afterCycle s (p, Responses.success statsData ordersData, now)).orders = ordersData ∧
    (afterCycle s (p, Responses.success statsData ordersData, now)).previousOrderCount
      = ordersData.length ∧
    (afterCycle s (p, Responses.success statsData ordersData, now)).lastUpdated = some now ∧
    (fetchData p s.previousOrderCount (Responses.success statsData ordersData) now
        (World.start s)).2.app
      = (fetchData workingPlatform s.previousOrderCount
          (Responses.success statsData ordersData) now (World.start s)).2.app ∧
    afterCycle s (p, Responses.success statsData ordersData, now)
      = afterCycle s (workingPlatform, Responses.success statsData ordersData, now) := by
  have hn := fetchData_notify p s.previousOrderCount statsData ordersData now (World.start s)
    ⟨hp, hc⟩
  have hw := fetchData_notify workingPlatform s.previousOrderCount statsData ordersData now
    (World.start s) ⟨hp, hc⟩
  refine ⟨returns_of_appends (playNotificationSound_appends p) s,
    returns_of_appends (playFallbackSound_appends p) s,
    returns_of_appends (showBrowserNotification_appends p) s,
    fun cb => returns_of_appends (runCallback_appends p cb) s, ?_, ?_, ?_, ?_, ?_, ?_, ?_, ?_⟩
  · exact (call_mem_effectsOf_fetchData_iff p s.previousOrderCount statsData ordersData now
      s).mpr ⟨hp, hc⟩
  · simp [returns, hn]
  · rw [afterCycle_eq, payload_success]
    rfl
  · rw [afterCycle_eq, payload_success]
    rfl
  · rw [afterCycle_eq, payload_success]
    rfl
  · rw [afterCycle_eq, payload_success]
    rfl
  · rw [hn, hw]
  · rw [afterCycle_eq, afterCycle_eq]

/-- Witness of C13: every stage of the notifier fails while eight orders arrive on
a baseline of five. -/
theorem notifier_failures_do_not_block_commit_witness :
    returns (playNotificationSound brokenPlatform) fiveOrders = true ∧
    returns (fetchData brokenPlatform 5
        (Responses.success sampleStats (List.replicate 8 sampleOrder)) 20) fiveOrders = true ∧
    afterCycle fiveOrders
        (brokenPlatform, Responses.success sampleStats (List.replicate 8 sampleOrder), 20)
      = afterCycle fiveOrders
        (workingPlatform, Responses.success sampleStats (List.replicate 8 sampleOrder), 20) :=
  ⟨(notifier_failures_do_not_block_commit brokenPlatform sampleStats
      (List.replicate 8 sampleOrder) 20 fiveOrders (by decide) (by decide)).1,
   (notifier_failures_do_not_block_commit brokenPlatform sampleStats
      (List.replicate 8 sampleOrder) 20 fiveOrders (by decide) (by decide)).2.2.2.2.2.1,
   (notifier_failures_do_not_block_commit brokenPlatform sampleStats
      (List.replicate 8 sampleOrder) 20 fiveOrders (by decide) (by decide)).2.2.2.2.2.2.2.2.2.2.2⟩

theorem afterRender_effectDep (m : Mounted) :
    (afterRender m).effectDep = (afterRender m).app.previousOrderCount := by
  unfold afterRender
  split_ifs with h
  · exact h.symm
  · rfl

theorem mount_effectDep : mount.effectDep = mount.app.previousOrderCount := rfl

theorem polling_fields :
    polling.effectDep = 5 ∧ polling.app.previousOrderCount = 5 ∧ polling.intervalId = 1 ∧
    polling.nextIntervalId = 2 := by
  simp only [polling, completeCycle, afterCycle_eq, payload_success]
  decide

theorem handleManualRefresh_intervalId (m : Mounted) (c : Platform × Responses × Nat)
    (h : m.effectDep = m.app.previousOrderCount) :
    (handleManualRefresh m c).intervalId
      = (if (afterCycle m.app c).previousOrderCount = m.app.previousOrderCount then m.intervalId
         else m.nextIntervalId) := by
  by_cases hc : (afterCycle m.app c).previousOrderCount = m.app.previousOrderCount
  · simp [handleManualRefresh, completeCycle, afterRender, hc, h]
  · simp [handleManualRefresh, completeCycle, afterRender, hc, h, pollingEffect,
      pollingCleanup]

/-- C14 (as stated, refuted): with five orders on display and no cycle in flight, a
manual refresh that returns eight orders changes `previousOrderCount`, so the
effect of line 154 runs again: the interval in place is cleared, a new interval
is created and one more fetch cycle is started at once. -/
theorem manual_refresh_restarts_polling :
    ¬ ((handleManualRefresh polling
          (workingPlatform, Responses.success sampleStats (List.replicate 8 sampleOrder),
            20)).intervalId = polling.intervalId ∧
        PollEvent.clearInterval polling.intervalId
          ∉ (handleManualRefresh polling
              (workingPlatform, Responses.success sampleStats (List.replicate 8 sampleOrder),
                20)).events ∧
        (handleManualRefresh polling
          (workingPlatform, Responses.success sampleStats (List.replicate 8 sampleOrder),
            20)).events
          = polling.events ++ [PollEvent.log PollLog.manualRefreshTriggered,
                               PollEvent.fetchDataCalled 5]) := by
  obtain ⟨h1, h2, h3, h4⟩ := polling_fields
  intro h
  have hi := h.1
  rw [handleManualRefresh_intervalId polling _ (h1.trans h2.symm), afterCycle_eq,
    payload_success, h2, h3, h4] at hi
  revert hi
  decide

/-- C14 (amended): a manual refresh makes the same state transition as a tick of the
interval with the same outcome, namely that of the fetch cycle. It leaves the
interval untouched, and starts no further cycle, exactly when the cycle leaves
`previousOrderCount` unchanged; when the cycle changes `previousOrderCount`, the
interval in place is cleared, a new interval of 10000 ms is created and one more
fetch cycle is started at once. -/
theorem manual_refresh_transition (m : Mounted) (c : Platform × Responses × Nat)
    (h : m.effectDep = m.app.previousOrderCount) :
    (handleManualRefresh m c).app = afterCycle m.app c ∧
    (handleManualRefresh m c).app = (timerTick m c).app ∧
    (handleManualRefresh m c).effectDep = (handleManualRefresh m c).app.previousOrderCount ∧
    (if (afterCycle m.app c).previousOrderCount = m.app.previousOrderCount then
      (handleManualRefresh m c).intervalId = m.intervalId ∧
      (handleManualRefresh m c).events
        = m.events ++ [PollEvent.log PollLog.manualRefreshTriggered,
                       PollEvent.fetchDataCalled m.app.previousOrderCount]
    else
      (handleManualRefresh m c).intervalId = m.nextIntervalId ∧
      (handleManualRefresh m c).events
        = m.events ++ [PollEvent.log PollLog.manualRefreshTriggered,
                       PollEvent.fetchDataCalled m.app.previousOrderCount,
                       PollEvent.log PollLog.pollingStopped,
                       PollEvent.clearInterval m.intervalId,
                       PollEvent.fetchDataCalled (afterCycle m.app c).previousOrderCount,
                       PollEvent.setInterval m.nextIntervalId 10000,
                       PollEvent.log PollLog.pollingStarted]) := by
  refine ⟨?_, ?_, afterRender_effectDep _, ?_⟩
  · simp only [handleManualRefresh, completeCycle, afterRender]
    split_ifs <;> rfl
  · simp only [handleManualRefresh, timerTick, completeCycle, afterRender]
    split_ifs <;> rfl
  · by_cases hc : (afterCycle m.app c).previousOrderCount = m.app.previousOrderCount
    · simp [handleManualRefresh, completeCycle, afterRender, hc, h]
    · simp [handleManualRefresh, completeCycle, afterRender, hc, h, pollingEffect,
        pollingCleanup]

/-- Witness of C14: the manual refresh of the refuting scenario makes the state
transition of the fetch cycle and leaves the effect with the new baseline. -/
theorem manual_refresh_transition_witness :
    (handleManualRefresh polling
        (workingPlatform, Responses.success sampleStats (List.replicate 8 sampleOrder),
          20)).app
      = afterCycle polling.app
        (workingPlatform, Responses.success sampleStats (List.replicate 8 sampleOrder), 20) ∧
    (handleManualRefresh polling
        (workingPlatform, Responses.success sampleStats (List.replicate 8 sampleOrder),
          20)).effectDep
      = (handleManualRefresh polling
        (workingPlatform, Responses.success sampleStats (List.replicate 8 sampleOrder),
          20)).app.previousOrderCount :=
  ⟨(manual_refresh_transition polling
      (workingPlatform, Responses.success sampleStats (List.replicate 8 sampleOrder), 20)
      (polling_fields.1.trans polling_fields.2.1.symm)).1,
   (manual_refresh_transition polling
      (workingPlatform, Responses.success sampleStats (List.replicate 8 sampleOrder), 20)
      (polling_fields.1.trans polling_fields.2.1.symm)).2.2.1⟩

theorem orZero_eq (v : Option Int) : orZero v = v.getD 0 := by
  cases v with
  | none => rfl
  | some x =>
    simp only [orZero, Option.getD_some]
    split_ifs with h
    · exact h.symm
    · rfl

/-- C15: for every stats snapshot, the Total Revenue, Total Orders and Completed
cards and the Confirmed value of the chart show the value of their key when it is
present and 0 when it is absent, and the Pending card shows the defaulted
`total_orders` minus the defaulted `delivered_orders`. -/
theorem displayed_counters_default_to_zero (stats : StatsSnapshot) :
    totalRevenue stats = (match stats.revenue with
      | some x => x
      | none => 0) ∧
    totalOrders stats = (match stats.total_orders with
      | some x => x
      | none => 0) ∧
    completed stats = (match stats.delivered_orders with
      | some x => x
      | none => 0) ∧
    statusData stats = [("Confirmed", match stats.confirmed_orders with
      | some x => x
      | none => 0)] ∧
    pending stats = totalOrders stats - completed stats ∧
    pending stats = stats.total_orders.getD 0 - stats.delivered_orders.getD 0 := by
  rcases stats with ⟨r, t, d, c⟩
  refine ⟨?_, ?_, ?_, ?_, rfl, ?_⟩
  · show orZero r = _
    rw [orZero_eq]
    cases r <;> rfl
  · show orZero t = _
    rw [orZero_eq]
    cases t <;> rfl
  · show orZero d = _
    rw [orZero_eq]
    cases d <;> rfl
  · show [("Confirmed", orZero c)] = _
    rw [orZero_eq]
    cases c <;> rfl
  · show orZero t - orZero d = _
    rw [orZero_eq, orZero_eq]

theorem roundHalfEven_intCast (z : ℤ) : roundHalfEven (z : ℚ) = z := by
  simp [roundHalfEven]

theorem roundHalfEven_eq (x : ℚ) (f : ℤ) (h1 : (f : ℚ) ≤ x) (h2 : x < f + 1) :
    roundHalfEven x
      = (if x - f < 1 / 2 then f
         else if 1 / 2 < x - f then f + 1
         else if f % 2 = 0 then f
         else f + 1) := by
  have hf : ⌊x⌋ = f := Int.floor_eq_iff.mpr ⟨h1, h2⟩
  simp only [roundHalfEven, hf]

theorem roundHalfEven_nonneg {x : ℚ} (hx : 0 ≤ x) : 0 ≤ roundHalfEven x := by
  have h : 0 ≤ ⌊x⌋ := Int.floor_nonneg.mpr hx
  unfold roundHalfEven
  split_ifs <;> omega

/-- The rounded integer is within one half of the rational. -/
theorem roundHalfEven_near (x : ℚ) : |x - roundHalfEven x| ≤ 1 / 2 := by
  have h1 : (⌊x⌋ : ℚ) ≤ x := Int.floor_le x
  have h2 : x < ⌊x⌋ + 1 := Int.lt_floor_add_one x
  unfold roundHalfEven
  split_ifs with ha hb hc
  · rw [abs_le]
    constructor <;> linarith
  · push_cast
    rw [abs_le]
    constructor <;> linarith
  · rw [abs_le]
    constructor <;> linarith
  · push_cast
    rw [abs_le]
    constructor <;> linarith

theorem roundMagnitude_nonneg {a : ℚ} (ha : 0 ≤ a) : 0 ≤ roundMagnitude a := by
  unfold roundMagnitude
  have hq : (0 : ℚ) < 2 ^ (max (Int.log 2 a) (-1022) - 52) := by positivity
  have hr : 0 ≤ roundHalfEven (a / 2 ^ (max (Int.log 2 a) (-1022) - 52)) :=
    roundHalfEven_nonneg (div_nonneg ha hq.le)
  exact mul_nonneg (by exact_mod_cast hr) hq.le

theorem log_eq_of_bounds {a : ℚ} {e : ℤ} (ha : 0 < a) (h1 : (2 : ℚ) ^ e ≤ a)
    (h2 : a < (2 : ℚ) ^ (e + 1)) : Int.log 2 a = e := by
  have hb : 1 < 2 := by norm_num
  have l1 : e ≤ Int.log 2 a := (Int.zpow_le_iff_le_log hb ha).mp (by exact_mod_cast h1)
  have l2 : Int.log 2 a < e + 1 := (Int.lt_zpow_iff_log_lt hb ha).mp (by exact_mod_cast h2)
  omega

theorem roundMagnitude_eq {a : ℚ} {e m : ℤ} (ha : 0 < a) (h1 : (2 : ℚ) ^ e ≤ a)
    (h2 : a < (2 : ℚ) ^ (e + 1)) (he : -1022 ≤ e)
    (hm : roundHalfEven (a / 2 ^ (e - 52)) = m) :
    roundMagnitude a = (m : ℚ) * 2 ^ (e - 52) := by
  unfold roundMagnitude
  rw [log_eq_of_bounds ha h1 h2, max_eq_left he, hm]

theorem roundMagnitude_natCast (n : ℕ) (h0 : 0 < n) (h : n < 2 ^ 53) :
    roundMagnitude (n : ℚ) = n := by
  unfold roundMagnitude
  rw [Int.log_natCast]
  have hL : Nat.log 2 n < 53 := Nat.log_lt_of_lt_pow (by omega) h
  have hmax : max ((Nat.log 2 n : ℕ) : ℤ) (-1022) = (Nat.log 2 n : ℕ) := max_eq_left (by omega)
  rw [hmax]
  obtain ⟨k, hk⟩ : ∃ k : ℕ, ((Nat.log 2 n : ℕ) : ℤ) - 52 = -(k : ℤ) :=
    ⟨52 - Nat.log 2 n, by omega⟩
  rw [hk, zpow_neg, zpow_natCast, div_inv_eq_mul]
  have hc : (n : ℚ) * 2 ^ k = (((n * 2 ^ k : ℕ) : ℤ) : ℚ) := by
    push_cast
    ring
  rw [hc, roundHalfEven_intCast]
  push_cast
  field_simp

theorem roundDouble_natCast (n : ℕ) (h : n < 2 ^ 53) :
    roundDouble (n : ℚ) = JsNumber.finite n := by
  rcases Nat.eq_zero_or_pos n with h0 | h0
  · subst h0
    simp [roundDouble]
  · have hq : (0 : ℚ) < n := by exact_mod_cast h0
    have hlt : (n : ℚ) < 2 ^ (1024 : ℕ) := by
      have h1 : (n : ℚ) < 2 ^ (53 : ℕ) := by exact_mod_cast h
      have h2 : (2 : ℚ) ^ (53 : ℕ) ≤ 2 ^ (1024 : ℕ) :=
        pow_le_pow_right₀ (by norm_num) (by norm_num)
      linarith
    unfold roundDouble
    rw [if_neg (ne_of_gt hq), if_pos hq, roundMagnitude_natCast n h0 h, if_neg (not_le.mpr hlt)]

theorem roundDouble_nonneg {q : ℚ} (hq : 0 ≤ q) :
    JsNumber.le (JsNumber.finite 0) (roundDouble q) = true := by
  unfold roundDouble
  split_ifs with h0 hpos hov hov2
  · simp [JsNumber.le]
  · rfl
  · simp [JsNumber.le, roundMagnitude_nonneg hq]
  · exact absurd (lt_of_le_of_ne hq (Ne.symm h0)) hpos
  · exact absurd (lt_of_le_of_ne hq (Ne.symm h0)) hpos

theorem mul_nonneg_of_finite_quantity {price : JsNumber} {q : ℚ}
    (hp : JsNumber.le (JsNumber.finite 0) price = true) (hq : 1 ≤ q) :
    JsNumber.le (JsNumber.finite 0) (JsNumber.mul price (JsNumber.finite q)) = true := by
  have hq0 : 0 < q := by linarith
  cases price with
  | finite p =>
    have hp0 : 0 ≤ p := by simpa [JsNumber.le] using hp
    exact roundDouble_nonneg (mul_nonneg hp0 hq0.le)
  | posInf => simp [JsNumber.mul, ne_of_gt hq0, hq0, JsNumber.le]
  | negInf => simp [JsNumber.le] at hp
  | nan => simp [JsNumber.le] at hp

theorem add_nonneg_of_nonneg {x y : JsNumber}
    (hx : JsNumber.le (JsNumber.finite 0) x = true)
    (hy : JsNumber.le (JsNumber.finite 0) y = true) :
    JsNumber.le (JsNumber.finite 0) (JsNumber.add x y) = true := by
  cases x with
  | finite a =>
    cases y with
    | finite b =>
      have ha : 0 ≤ a := by simpa [JsNumber.le] using hx
      have hb : 0 ≤ b := by simpa [JsNumber.le] using hy
      exact roundDouble_nonneg (add_nonneg ha hb)
    | posInf => rfl
    | negInf => simp [JsNumber.le] at hy
    | nan => simp [JsNumber.le] at hy
  | posInf =>
    cases y with
    | finite b => rfl
    | posInf => rfl
    | negInf => simp [JsNumber.le] at hy
    | nan => simp [JsNumber.le] at hy
  | negInf => simp [JsNumber.le] at hx
  | nan => simp [JsNumber.le] at hx

theorem foldl_nonneg (items : List Item) (acc : JsNumber)
    (hacc : JsNumber.le (JsNumber.finite 0) acc = true)
    (h : ∀ item ∈ items, JsNumber.le (JsNumber.finite 0) item.price = true ∧
      ∃ q : ℚ, item.quantity = JsNumber.finite q ∧ 1 ≤ q) :
    JsNumber.le (JsNumber.finite 0)
      (items.foldl (fun sum item => JsNumber.add sum (JsNumber.mul item.price item.quantity))
        acc) = true := by
  induction items generalizing acc with
  | nil => exact hacc
  | cons item rest ih =>
    rw [List.foldl_cons]
    obtain ⟨hp, q, hq, hq1⟩ := h item (List.mem_cons_self _ _)
    apply ih
    · rw [hq]
      exact add_nonneg_of_nonneg hacc (mul_nonneg_of_finite_quantity hp hq1)
    · exact fun i hi => h i (List.mem_cons_of_mem _ hi)

theorem toRat_finite (q : ℚ) : (JsNumber.finite q).toRat = q := rfl

theorem sum_products_nonneg (items : List Item)
    (h : ∀ item ∈ items, item.price.isWhole ∧ item.quantity.isWhole) :
    0 ≤ (items.map (fun item => item.price.toRat * item.quantity.toRat)).sum := by
  apply List.sum_nonneg
  intro x hx
  obtain ⟨item, hitem, rfl⟩ := List.mem_map.mp hx
  obtain ⟨⟨p, hp⟩, ⟨q, hq⟩⟩ := h item hitem
  rw [hp, hq, toRat_finite, toRat_finite]
  positivity

theorem foldl_whole (items : List Item) (acc : ℕ)
    (h : ∀ item ∈ items, item.price.isWhole ∧ item.quantity.isWhole)
    (hlt : (acc : ℚ) + (items.map (fun item => item.price.toRat * item.quantity.toRat)).sum
      < 2 ^ (53 : ℕ)) :
    items.foldl (fun sum item => JsNumber.add sum (JsNumber.mul item.price item.quantity))
        (JsNumber.finite acc)
      = JsNumber.finite
          ((acc : ℚ) + (items.map (fun item => item.price.toRat * item.quantity.toRat)).sum) := by
  induction items generalizing acc with
  | nil => simp
  | cons item rest ih =>
    obtain ⟨⟨p, hp⟩, ⟨q, hq⟩⟩ := h item (List.mem_cons_self _ _)
    have hrest := sum_products_nonneg rest (fun i hi => h i (List.mem_cons_of_mem _ hi))
    simp only [List.map_cons, List.sum_cons, hp, hq, toRat_finite] at hlt ⊢
    have hacc : (0 : ℚ) ≤ acc := by positivity
    have hpq : p * q < 2 ^ 53 := by
      have : ((p * q : ℕ) : ℚ) < 2 ^ (53 : ℕ) := by
        push_cast
        linarith
      exact_mod_cast this
    have hsum : acc + p * q < 2 ^ 53 := by
      have : ((acc + p * q : ℕ) : ℚ) < 2 ^ (53 : ℕ) := by
        push_cast
        linarith
      exact_mod_cast this
    have hmul : JsNumber.mul (JsNumber.finite p) (JsNumber.finite q)
        = JsNumber.finite ((p * q : ℕ) : ℚ) := by
      have := roundDouble_natCast (p * q) hpq
      simp only [JsNumber.mul]
      rw [← this]
      push_cast
      rfl
    have hadd : JsNumber.add (JsNumber.finite acc) (JsNumber.finite ((p * q : ℕ) : ℚ))
        = JsNumber.finite ((acc + p * q : ℕ) : ℚ) := by
      have := roundDouble_natCast (acc + p * q) hsum
      simp only [JsNumber.add]
      rw [← this]
      push_cast
      rfl
    rw [List.foldl_cons, hp, hq, hmul, hadd, ih (acc + p * q)
      (fun i hi => h i (List.mem_cons_of_mem _ hi)) (by push_cast; linarith)]
    congr 1
    push_cast
    ring

/-- The decimal `0.1` decodes to the price of `tenthOrder`. -/
theorem roundDouble_tenth :
    roundDouble (1 / 10) = JsNumber.finite (3602879701896397 / 36028797018963968) := by
  have hm : roundHalfEven ((1 / 10 : ℚ) / 2 ^ ((-4 : ℤ) - 52)) = 7205759403792794 := by
    rw [roundHalfEven_eq _ 7205759403792793 (by norm_num) (by norm_num)]
    norm_num
  have h := roundMagnitude_eq (a := 1 / 10) (e := -4) (by norm_num) (by norm_num)
    (by norm_num) (by norm_num) hm
  unfold roundDouble
  rw [if_neg (by norm_num), if_pos (by norm_num), h, if_neg (by norm_num)]
  norm_num

/-- The Total Amount of `tenthOrder` is the double shown as 0.30000000000000004. -/
theorem totalAmount_tenthOrder :
    totalAmount tenthOrder = JsNumber.finite (1351079888211149 / 4503599627370496) := by
  have hm1 : roundHalfEven
      ((3602879701896397 / 36028797018963968 * 3 : ℚ) / 2 ^ ((-2 : ℤ) - 52))
      = 5404319552844596 := by
    rw [roundHalfEven_eq _ 5404319552844595 (by norm_num) (by norm_num)]
    norm_num
  have h1 := roundMagnitude_eq (a := 3602879701896397 / 36028797018963968 * 3) (e := -2)
    (by norm_num) (by norm_num) (by norm_num) (by norm_num) hm1
  have hmul : roundDouble (3602879701896397 / 36028797018963968 * 3)
      = JsNumber.finite (1351079888211149 / 4503599627370496) := by
    unfold roundDouble
    rw [if_neg (by norm_num), if_pos (by norm_num), h1, if_neg (by norm_num)]
    norm_num
  have hm2 : roundHalfEven
      ((0 + 1351079888211149 / 4503599627370496 : ℚ) / 2 ^ ((-2 : ℤ) - 52))
      = 5404319552844596 := by
    rw [roundHalfEven_eq _ 5404319552844596 (by norm_num) (by norm_num)]
    norm_num
  have h2 := roundMagnitude_eq (a := 0 + 1351079888211149 / 4503599627370496) (e := -2)
    (by norm_num) (by norm_num) (by norm_num) (by norm_num) hm2
  have hadd : roundDouble (0 + 1351079888211149 / 4503599627370496)
      = JsNumber.finite (1351079888211149 / 4503599627370496) := by
    unfold roundDouble
    rw [if_neg (by norm_num), if_pos (by norm_num), h2, if_neg (by norm_num)]
    norm_num
  simp only [totalAmount, tenthOrder, List.foldl_cons, List.foldl_nil, JsNumber.mul,
    JsNumber.add]
  rw [hmul]
  simp only [JsNumber.add]
  rw [hadd]

/-- The double nearest to the decimal `0.3`. -/
theorem roundDouble_three_tenths :
    roundDouble (3 / 10) = JsNumber.finite (5404319552844595 / 18014398509481984) := by
  have hm : roundHalfEven ((3 / 10 : ℚ) / 2 ^ ((-2 : ℤ) - 52)) = 5404319552844595 := by
    rw [roundHalfEven_eq _ 5404319552844595 (by norm_num) (by norm_num)]
    norm_num
  have h := roundMagnitude_eq (a := 3 / 10) (e := -2) (by norm_num) (by norm_num)
    (by norm_num) (by norm_num) hm
  unfold roundDouble
  rw [if_neg (by norm_num), if_pos (by norm_num), h, if_neg (by norm_num)]
  norm_num

/-- With the price 0 and the quantity `Infinity` the product is NaN, and so is the
Total Amount, which is then not at least 0. -/
theorem totalAmount_unboundedOrder :
    totalAmount unboundedOrder = JsNumber.nan ∧
    JsNumber.le (JsNumber.finite 0) (totalAmount unboundedOrder) = false := by
  have h : totalAmount unboundedOrder = JsNumber.nan := by
    simp [totalAmount, unboundedOrder, JsNumber.mul, JsNumber.add]
  rw [h]
  exact ⟨rfl, rfl⟩

/-- C16 (as stated, refuted): for three portions at the price 0.1 the Total Amount
is neither the exact sum of price times quantity nor the double nearest to the
decimal 0.3; it is the double shown as 0.30000000000000004. -/
theorem totalAmount_not_exact_sum :
    ¬ (totalAmount tenthOrder = JsNumber.finite (exactTotal tenthOrder)) ∧
    ¬ (totalAmount tenthOrder = roundDouble (3 / 10)) := by
  rw [totalAmount_tenthOrder, roundDouble_three_tenths]
  constructor
  · intro h
    have h2 := JsNumber.finite.inj h
    simp only [exactTotal, tenthOrder, List.map_cons, List.map_nil, List.sum_cons,
      List.sum_nil, JsNumber.toRat] at h2
    norm_num at h2
  · intro h
    have h2 := JsNumber.finite.inj h
    norm_num at h2

/-- C16 (amended): the Total Amount of an order is computed in double arithmetic,
every product and every partial sum rounded to the nearest double. It is 0 for an
order without items; it is the exact sum over the items of price times quantity
when all prices and quantities are natural numbers and that sum is below `2 ^ 53`;
and it is at least 0, possibly `Infinity`, when every item has a price of at
least 0 and a finite quantity of at least 1. -/
theorem totalAmount_rounded (order : Order) :
    (∀ phone : String, totalAmount ⟨phone, []⟩ = JsNumber.finite 0) ∧
    ((∀ item ∈ order.items, item.price.isWhole ∧ item.quantity.isWhole) →
      exactTotal order < 2 ^ (53 : ℕ) →
      totalAmount order = JsNumber.finite (exactTotal order)) ∧
    ((∀ item ∈ order.items, JsNumber.le (JsNumber.finite 0) item.price = true ∧
        ∃ q : ℚ, item.quantity = JsNumber.finite q ∧ 1 ≤ q) →
      JsNumber.le (JsNumber.finite 0) (totalAmount order) = true) := by
  refine ⟨fun _ => rfl, fun hw hlt => ?_, fun hpos => ?_⟩
  · have h := foldl_whole order.items 0 hw (by simpa [exactTotal] using hlt)
    simp only [Nat.cast_zero, zero_add] at h
    exact h
  · exact foldl_nonneg order.items (JsNumber.finite 0) (by simp [JsNumber.le]) hpos

/-- Witness of C16: two portions at 250 each amount to exactly 500, which is at
least 0. -/
theorem totalAmount_rounded_witness :
    totalAmount sampleOrder = JsNumber.finite 500 ∧
    JsNumber.le (JsNumber.finite 0) (totalAmount sampleOrder) = true :=
  ⟨((totalAmount_rounded sampleOrder).2.1
      (by
        intro item hitem
        simp only [sampleOrder, List.mem_singleton] at hitem
        rw [hitem]
        exact ⟨⟨250, rfl⟩, ⟨2, rfl⟩⟩)
      (by
        simp only [exactTotal, sampleOrder, List.map_cons, List.map_nil, List.sum_cons,
          List.sum_nil]
        norm_num [JsNumber.toRat, OfNat.ofNat])).trans
      (by
        simp only [exactTotal, sampleOrder, List.map_cons, List.map_nil, List.sum_cons,
          List.sum_nil]
        norm_num [JsNumber.toRat, OfNat.ofNat]),
   (totalAmount_rounded sampleOrder).2.2
      (by
        intro item hitem
        simp only [sampleOrder, List.mem_singleton] at hitem
        rw [hitem]
        refine ⟨?_, 2, rfl, by norm_num⟩
        show JsNumber.le (JsNumber.finite 0) (JsNumber.finite ((250 : ℕ) : ℚ)) = true
        simp [JsNumber.le])⟩

end Dashboard
